import Mathlib

/-!
# SoldCamp character: counters, mode flags and deferred actions

A shallow embedding of `ASoldCampCharacter` (Source/SoldCamp/SoldCampCharacter.cpp).

Modelling conventions.

* One `State` value stands for one character instance: its own data members, the
  validity of the engine references it tests against `nullptr`, the timer registered
  under its `TimerHandle`, the visibility of the actor and of its two weapons, and the
  list of calls it has issued to its collaborators (weapons, controllers, animation
  instance, sound), oldest first.
* `float` members are rationals and `int32` members are integers.  The functions take the
  arithmetic on `float` members (`-=`, `--`, `+`) as exact; that is what the statements about
  flags, timers, calls and bounds read.  Where a statement reads the numeric result itself,
  the section on single precision gives the function again with the result rounded as the
  `float` operation rounds it.
* Transforms, capsule size, camera settings, movement mode and debug drawing live in
  engine components; the calls that only touch them are left out of the bodies below
  and are named in the comments where they occur.
* A member call through a null `CurrentController` is a fault: the function returns
  `Except.error s` where `s` is the state at the faulting statement.  Functions with no
  such call are total and return the state directly.
* The two weapon actors are the ones spawned in `BeginPlay`.
-/

namespace SoldCamp

/-- Member functions the character hands to the timer manager. -/
inductive TimerCallback
  | DelayedDestroy
  | DelayedHitRecovery
  | ShowCharacterReturn
  | ModeChangeToWalking
  deriving DecidableEq, Repr

/-- What `SetTimer(TimerHandle, this, Callback, InRate, bLoop)` registers: the callback,
the seconds left until it fires (set to `InRate` by `SetTimer`) and the repeat flag. -/
structure Timer where
  Callback : TimerCallback
  Remaining : ℚ
  bLoop : Bool
  deriving DecidableEq, Repr

/-- The two owned `AGun` actors, `MyPistol` and `MyRifle`. -/
inductive Weapon
  | MyPistol
  | MyRifle
  deriving DecidableEq, Repr

/-- Calls a character issues to collaborators outside the class. -/
inductive Event
  | GunTriggered (w : Weapon)
  | PlayEmptySound (w : Weapon)
  | PlayReloadSound (w : Weapon)
  | TurnOnHUD
  | TurnOffHUD
  | SetBlackboardDeadMode
  | SetBlackboardHitMode (b : Bool)
  | PlaySound_HeadShoot
  | DestroyPistol
  | Montage_Play_CoverShoot
  | SpawnHitParticle
  | TakeDamageOnHitActor (DamageAmount : ℚ)
  | SaveGameToSlot (MyScore : ℤ)
  deriving DecidableEq, Repr

/-- One `ASoldCampCharacter` instance. -/
structure State where
  -- health and ammunition counters (float)
  MaxHealth : ℚ
  CurrentHealth : ℚ
  MaxBullet_Pistol : ℚ
  CurrentBullet_Pistol : ℚ
  MaxBullet_Rifle : ℚ
  CurrentBullet_Rifle : ℚ
  Damage : ℚ
  HeadshootDamage : ℚ
  CurrentDeltaTime : ℚ
  TimePerOneShoot : ℚ
  RunSpeed : ℚ
  -- integers
  CurrentWeaponNum : ℤ
  CurrentScore : ℤ
  -- mode flags
  Dying : Bool
  bHitFront : Bool
  bHitBack : Bool
  ShouldAim : Bool
  ShouldCrouch : Bool
  ShouldCrawl : Bool
  ShouldClimb : Bool
  ShouldTakeOver : Bool
  CurrentCover : Bool
  CurrentCrouchCover : Bool
  CoverAimable : Bool
  CrouchCoverAimable : Bool
  Reloading : Bool
  LadderClimbDownStart : Bool
  ClimbLadderToTopEnd : Bool
  -- sensing flags written by the per-frame traces and overlap volumes
  Coverable : Bool
  CrouchCoverable : Bool
  Climbable : Bool
  LadderClimbDownable : Bool
  Washable : Bool
  -- engine references: true when the pointer is not null
  CurrentControllerValid : Bool
  CurrentAnimInstanceValid : Bool
  CoverShootMontageValid : Bool
  Sfx_HeadShootValid : Bool
  HitParticleValid : Bool
  -- engine queries
  /-- The value of `IsPlayerControlled()`. -/
  PlayerControlled : Bool
  /-- Whether `Cast<AEnemyAIController>(GetController())` is not null. -/
  EnemyAIControlled : Bool
  /-- The value of `Montage_IsPlaying(CoverShootMontage)`. -/
  CoverShootMontagePlaying : Bool
  -- timer registered under `TimerHandle`; `none` when `IsTimerActive(TimerHandle)` is false
  TimerHandle : Option Timer
  -- `SetActorHiddenInGame` on the character and on its weapons
  Hidden : Bool
  PistolHidden : Bool
  RifleHidden : Bool
  -- calls issued so far, oldest first
  Calls : List Event

/-- Record a call to a collaborator. -/
def State.call (s : State) (e : Event) : State :=
  { s with Calls := s.Calls ++ [e] }

/-- The guard `GetWorld()->GetTimerManager().IsTimerActive(TimerHandle)`. -/
def IsTimerActive (s : State) : Bool :=
  s.TimerHandle.isSome

/-- The call `GetWorld()->GetTimerManager().SetTimer(TimerHandle, this, cb, InRate, bLoop)`:
whatever was registered under the handle is replaced. -/
def SetTimer (s : State) (cb : TimerCallback) (InRate : ℚ) (bLoop : Bool) : State :=
  { s with TimerHandle := some { Callback := cb, Remaining := InRate, bLoop := bLoop } }

/-- How many times `e` occurs in the call list. -/
def State.callCount (s : State) (e : Event) : ℕ :=
  s.Calls.count e

/-- The state in which a call ended, whether it returned or faulted. -/
def endState : Except State State → State
  | .ok s => s
  | .error s => s

/-! ## Save slot -/

/-- `LoadPlayerData`.  `slot` is what `LoadGameFromSlot(SaveSlotName, 0)` yields cast to
`UMySaveGame` (its `MyScore`, or `none` for a null object); `DefaultMyScore` is `MyScore` of
the object `GetMutableDefault<UMySaveGame>()` returns. -/
def LoadPlayerData (slot : Option ℤ) (DefaultMyScore : ℤ) (s : State) : State :=
  let SaveDataPtr_MyScore :=
    match slot with
    | some MyScore => MyScore
    | none => DefaultMyScore
  { s with CurrentScore := SaveDataPtr_MyScore }

/-- Modelled from the spec: the save object type `UMySaveGame` is declared outside src/ and
the slot is kept by the engine.  The spec has "a single named save slot storing one integer
score field": a slot holds the `MyScore` last written to it, or nothing loadable (`none`).
`SaveGameToSlot` answers whether the write succeeded; a successful write leaves the saved
`MyScore` in the slot, a failed one leaves the slot as it was. -/
def SaveGameToSlot (Succeeds : Bool) (MyScore : ℤ) (slot : Option ℤ) : Bool × Option ℤ :=
  if Succeeds then (true, some MyScore) else (false, slot)

/-- `SavePlayerData`.  `SaveSucceeds` is what `SaveGameToSlot(SaveDataPtr, SaveSlotName, 0)`
returns; `slot` is the `MyScore` held by the slot before the call (`none` when there is no
loadable save).  Returns the slot after the call.  The two branches on the result only log. -/
def SavePlayerData (SaveSucceeds : Bool) (slot : Option ℤ) (s : State) : Option ℤ × State :=
  let SaveDataPtr_MyScore := s.CurrentScore
  let s := s.call (.SaveGameToSlot SaveDataPtr_MyScore)
  let saved := SaveGameToSlot SaveSucceeds SaveDataPtr_MyScore slot
  if saved.1 = false then (saved.2, s) else (saved.2, s)

/-! ## Spawn -/

/-- `BeginPlay`.  `FirstPlayerControllerIsMine` is whether
`Cast<AMyPlayerController>(GetWorld()->GetFirstPlayerController())` is not null,
`AnimInstance` whether `GetMesh()->GetAnimInstance()` is not null.  The freshly spawned
weapons start visible.  Input-mapping setup, attachment and `OriginalRotation` are left out. -/
def BeginPlay (FirstPlayerControllerIsMine AnimInstance : Bool) (slot : Option ℤ)
    (DefaultMyScore : ℤ) (s : State) : State :=
  let s := { s with PistolHidden := false, RifleHidden := false }
  let s :=
    if s.CurrentWeaponNum = 0 then
      { s with PistolHidden := false, RifleHidden := true }
    else if s.CurrentWeaponNum = 1 then
      { s with PistolHidden := true, RifleHidden := false }
    else s
  let s := { s with CurrentHealth := s.MaxHealth }
  let s := { s with CurrentBullet_Pistol := s.MaxBullet_Pistol }
  let s := { s with CurrentBullet_Rifle := s.MaxBullet_Rifle }
  let s := { s with CurrentControllerValid := FirstPlayerControllerIsMine }
  let s := LoadPlayerData slot DefaultMyScore s
  { s with CurrentAnimInstanceValid := AnimInstance }

/-! ## Damage -/

/-- `TakeDamage`.  `Super_TakeDamage` is the engine's base `TakeDamage` as a function of the
requested amount; its value is `DamageToApply`.  The subtraction is exact here;
`Single.TakeDamage` rounds it. -/
def TakeDamage (Super_TakeDamage : ℚ → ℚ) (DamageAmount : ℚ) (s : State) : ℚ × State :=
  let DamageToApply := Super_TakeDamage DamageAmount
  let s := { s with CurrentHealth := s.CurrentHealth - DamageToApply }
  if s.CurrentHealth ≤ 0 then
    let s := { s with Dying := true }
    let s := if s.EnemyAIControlled then s.call .SetBlackboardDeadMode else s
    let s := if s.Sfx_HeadShootValid then s.call .PlaySound_HeadShoot else s
    let s := s.call .DestroyPistol
    let s :=
      if IsTimerActive s = false then SetTimer s .DelayedDestroy 3 false else s
    (DamageToApply, s)
  else if s.CurrentHealth > 0 then
    if s.bHitFront = true ∨ s.bHitBack = true then
      let s := if s.EnemyAIControlled then s.call (.SetBlackboardHitMode true) else s
      let s :=
        if IsTimerActive s = false then SetTimer s .DelayedHitRecovery (126 / 100) false else s
      (DamageToApply, s)
    else (DamageToApply, s)
  else (DamageToApply, s)

/-- `DelayedHitRecovery`. -/
def DelayedHitRecovery (s : State) : State :=
  { s with bHitFront := false, bHitBack := false }

/-! ## Stance: crouch and prone -/

/-- `Crouched`.  The capsule half height and the mesh offset set in each branch are left out. -/
def Crouched (s : State) : State :=
  if s.ShouldCrouch = false then
    { s with ShouldCrouch := true, ShouldCrawl := false }
  else if s.ShouldCrouch = true then
    { s with ShouldCrouch := false }
  else s

/-- `Crawled`.  The capsule half height and the mesh offset set in each branch are left out. -/
def Crawled (s : State) : State :=
  if s.ShouldCrouch = true then
    if s.ShouldCrawl = false then
      { s with ShouldCrawl := true, ShouldCrouch := false }
    else
      { s with ShouldCrawl := false }
  else s

/-! ## Shooting -/

/-- The actor a line trace reports, seen from the shooter. -/
inductive HitActor
  /-- `Hit.GetActor()` is null. -/
  | Null
  /-- An actor for which `Cast<ASoldCampCharacter>` fails. -/
  | NotACharacter
  /-- The shooting character itself. -/
  | Self
  /-- Another character, in the state it has when the shot lands. -/
  | Character (target : State)

/-- The parts of `FHitResult` the shooting code reads.  `ShootAngle` is the yaw of
`TargetActor->GetActorForwardVector().Rotation() - Hit.ImpactPoint.Rotation()`. -/
structure FHitResult where
  Actor : HitActor
  ComponentName : String
  ShootAngle : ℚ

/-- What the world answers to one shot: the result of `LineTraceSingleByChannel`
(`none` when `bSuccess` is false) and the engine's base `TakeDamage` of the actor hit. -/
structure ShotWorld where
  Trace : Option FHitResult
  Super_TakeDamage : ℚ → ℚ

/-- `Shoot_BulletEmptyCheck`. -/
def Shoot_BulletEmptyCheck (s : State) : Bool × State :=
  if s.CurrentWeaponNum = 0 ∧ s.CurrentBullet_Pistol ≤ 0 then
    (true, s.call (.PlayEmptySound .MyPistol))
  else if s.CurrentWeaponNum = 1 ∧ s.CurrentBullet_Rifle ≤ 0 then
    (true, s.call (.PlayEmptySound .MyRifle))
  else (false, s)

/-- `Shoot_PlayCoverShootAnim`. -/
def Shoot_PlayCoverShootAnim (s : State) : State :=
  if s.CoverShootMontagePlaying = false then
    { s.call .Montage_Play_CoverShoot with CoverShootMontagePlaying := true }
  else s

/-- `TriggerCurrentWeapon`.  The decrement is exact here; `Single.TriggerCurrentWeapon`
rounds it. -/
def TriggerCurrentWeapon (s : State) : State :=
  if s.CurrentWeaponNum = 0 then
    let s := s.call (.GunTriggered .MyPistol)
    { s with CurrentBullet_Pistol := s.CurrentBullet_Pistol - 1 }
  else if s.CurrentWeaponNum = 1 then
    let s := s.call (.GunTriggered .MyRifle)
    { s with CurrentBullet_Rifle := s.CurrentBullet_Rifle - 1 }
  else s

/-- `CheckFrontBackHit`, acting on the target character. -/
def CheckFrontBackHit (ShootAngle : ℚ) (target : State) : State :=
  if ShootAngle < 0 ∧ ShootAngle > -180 then
    { target with bHitFront := true }
  else if ShootAngle ≥ 0 then
    { target with bHitBack := true }
  else target

/-- `MakeMuzzleFlash`. -/
def MakeMuzzleFlash (s : State) : State :=
  if s.HitParticleValid then s.call .SpawnHitParticle else s

/-- `RotateCharacterToAim`: reads the view point through `CurrentController` when aiming.
The rotation it then gives the actor is left out. -/
def RotateCharacterToAim (s : State) : Except State State :=
  if s.ShouldAim = true then
    if s.CurrentControllerValid then .ok s else .error s
  else .ok s

/-- `Shoot_HitCheck`.  Returns the shooter and, when another character was hit, that
character after the shot.  `Shoot_DrawDebugs` only draws and is left out. -/
def Shoot_HitCheck (w : ShotWorld) (s : State) : Except State (State × Option State) :=
  let traced : Except State State :=
    if s.PlayerControlled = true then
      -- CurrentController->GetPlayerViewPoint(Location, Rotation)
      if s.CurrentControllerValid then RotateCharacterToAim s else .error s
    else .ok s
  match traced with
  | .error s => .error s
  | .ok s =>
    match w.Trace with
    | none => .ok (s, none)
    | some Hit =>
      let s := MakeMuzzleFlash s
      match Hit.Actor with
      | .Null => .ok (s, none)
      | .NotACharacter => .ok (s, none)
      | .Self =>
        if Hit.ComponentName = "HeadshootZone" then
          let s := s.call (.TakeDamageOnHitActor s.HeadshootDamage)
          .ok ((TakeDamage w.Super_TakeDamage s.HeadshootDamage s).2, none)
        else
          let s := s.call (.TakeDamageOnHitActor s.Damage)
          let s := (TakeDamage w.Super_TakeDamage s.Damage s).2
          .ok (CheckFrontBackHit Hit.ShootAngle s, none)
      | .Character target =>
        if Hit.ComponentName = "HeadshootZone" then
          let s := s.call (.TakeDamageOnHitActor s.HeadshootDamage)
          .ok (s, some (TakeDamage w.Super_TakeDamage s.HeadshootDamage target).2)
        else
          let s := s.call (.TakeDamageOnHitActor s.Damage)
          let target := (TakeDamage w.Super_TakeDamage s.Damage target).2
          .ok (s, some (CheckFrontBackHit Hit.ShootAngle target))

/-- `Shoot`. -/
def Shoot (w : ShotWorld) (s : State) : Except State (State × Option State) :=
  if !s.CurrentAnimInstanceValid then .ok (s, none)
  else if !s.CoverShootMontageValid then .ok (s, none)
  else if s.ShouldAim = false then .ok (s, none)
  else
    let (isEmptyBullet, s) := Shoot_BulletEmptyCheck s
    if isEmptyBullet = true then .ok (s, none)
    else
      let s := if s.CoverAimable = true then Shoot_PlayCoverShootAnim s else s
      let s := TriggerCurrentWeapon s
      Shoot_HitCheck w s

/-- `AutoFire`.  `DeltaTimeSeconds` is `GetWorld()->DeltaTimeSeconds` of the frame. -/
def AutoFire (DeltaTimeSeconds : ℚ) (w : ShotWorld) (s : State) :
    Except State (State × Option State) :=
  if s.CurrentWeaponNum = 1 then
    let s := { s with CurrentDeltaTime := s.CurrentDeltaTime + DeltaTimeSeconds }
    if s.CurrentDeltaTime > s.TimePerOneShoot then
      let s := { s with CurrentDeltaTime := 0 }
      Shoot w s
    else .ok (s, none)
  else .ok (s, none)

/-- The shooter at the end of a shot, whether the call returned or faulted. -/
def shooter : Except State (State × Option State) → State
  | .ok (s, _) => s
  | .error s => s

/-- `Reload`. -/
def Reload (s : State) : State :=
  if s.CurrentWeaponNum = 0 then
    let s := { s with CurrentBullet_Pistol := s.MaxBullet_Pistol }
    let s := { s with Reloading := true }
    s.call (.PlayReloadSound .MyPistol)
  else if s.CurrentWeaponNum = 1 then
    let s := { s with CurrentBullet_Rifle := s.MaxBullet_Rifle }
    let s := { s with Reloading := true }
    s.call (.PlayReloadSound .MyRifle)
  else s

/-- `Swaped`. -/
def Swaped (s : State) : State :=
  let s := { s with CurrentWeaponNum := 0 }
  if s.CurrentWeaponNum = 0 then
    { s with PistolHidden := false, RifleHidden := true }
  else if s.CurrentWeaponNum = 1 then
    { s with PistolHidden := true, RifleHidden := false }
  else s

/-- `Swaped2`. -/
def Swaped2 (s : State) : State :=
  let s := { s with CurrentWeaponNum := 1 }
  if s.CurrentWeaponNum = 0 then
    { s with PistolHidden := false, RifleHidden := true }
  else if s.CurrentWeaponNum = 1 then
    { s with PistolHidden := true, RifleHidden := false }
  else s

/-! ## Aiming -/

/-- `Aim_Covered`. -/
def Aim_Covered (s : State) : State :=
  if s.CoverAimable = false then
    { s with ShouldAim := true, CoverAimable := true }
  else if s.CoverAimable = true then
    { s with ShouldAim := false, CoverAimable := false }
  else s

/-- `Aim_CrouchCovered`. -/
def Aim_CrouchCovered (s : State) : State :=
  if s.CrouchCoverAimable = false then
    { s with ShouldAim := true, CrouchCoverAimable := true }
  else if s.CrouchCoverAimable = true then
    { s with ShouldAim := false, CrouchCoverAimable := false }
  else s

/-- A member call `CurrentController->f()`: a fault when the pointer is null. -/
def callCurrentController (e : Event) (s : State) : Except State State :=
  if s.CurrentControllerValid then .ok (s.call e) else .error s

/-- `SwitchHUD_Character`.  The guard returns when `CurrentController != nullptr`; the two
calls below it are reached with a null `CurrentController`. -/
def SwitchHUD_Character (s : State) : Except State State :=
  if s.CurrentControllerValid then .ok s
  else if s.ShouldAim = true then callCurrentController .TurnOnHUD s
  else callCurrentController .TurnOffHUD s

/-- `Aim_Normal`.  `SwitchCameraMode_Aim` only writes camera settings and
`AlignCharacterForward` (which tests `CurrentController` before using it) only rotates the
mesh; both are left out. -/
def Aim_Normal (s : State) : Except State State :=
  if s.PlayerControlled = false then .ok s
  else if s.ShouldAim = false then
    SwitchHUD_Character { s with ShouldAim := true }
  else if s.ShouldAim = true then
    SwitchHUD_Character { s with ShouldAim := false }
  else .ok s

/-- `Aimed`. -/
def Aimed (s : State) : Except State State :=
  if s.CurrentCover = true then .ok (Aim_Covered s)
  else if s.CurrentCrouchCover = true then .ok (Aim_CrouchCovered s)
  else Aim_Normal s

/-! ## Cover -/

/-- `Covered`. -/
def Covered (s : State) : State :=
  let s :=
    if s.Coverable = true ∧ s.CurrentCover = false then
      { s with ShouldTakeOver := true, CurrentCover := true, RunSpeed := 0 }
    else if s.CurrentCover = true then
      { s with ShouldTakeOver := false, CurrentCover := false, RunSpeed := 1 / 2 }
    else s
  if s.CrouchCoverable = true ∧ s.Coverable = false ∧ s.CurrentCrouchCover = false then
    { s with CurrentCrouchCover := true, RunSpeed := 0 }
  else if s.CurrentCrouchCover = true then
    { s with CurrentCrouchCover := false, RunSpeed := 1 / 2 }
  else s

/-- `WallTracing` and `CreateCoverBoxChecker` as they write the two wall-sensing flags:
`Coverable` is set when both side traces hit, `CrouchCoverable` when the low trace hits. -/
def senseWalls (Result_l Result_r Result : Bool) (s : State) : State :=
  let s :=
    if Result_l = true ∧ Result_r = true then { s with Coverable := true }
    else if Result_l = false ∨ Result_r = false then { s with Coverable := false }
    else s
  if Result = true then { s with CrouchCoverable := true }
  else { s with CrouchCoverable := false }

/-! ## Interaction and ladder -/

/-- `ShowCharacterReturn`. -/
def ShowCharacterReturn (s : State) : State :=
  let s := { s with Hidden := false }
  let s := { s with PistolHidden := false }
  { s with ShouldClimb := false }

/-- `Interacted`.  The movement-mode changes and `SetActorLocationToClimbStart` are left
out. -/
def Interacted (s : State) : State :=
  let s :=
    if s.Climbable = true then
      { s with ShouldClimb := true }
    else if s.Climbable = false then
      if s.LadderClimbDownable = true then
        { s with ShouldClimb := true, LadderClimbDownStart := true }
      else
        { s with ShouldClimb := false }
    else s
  if s.Washable = true then
    let s := { s with Hidden := true }
    let s := { s with PistolHidden := true }
    SetTimer s .ShowCharacterReturn 3 false
  else s

/-- `UpdateMovementMode`. -/
def UpdateMovementMode (s : State) : State :=
  let s := { s with ShouldClimb := false }
  let s := { s with ClimbLadderToTopEnd := true }
  if IsTimerActive s = false then SetTimer s .ModeChangeToWalking 1 false else s

/-- `ModeChangeToWalking`.  The movement-mode change is left out. -/
def ModeChangeToWalking (s : State) : State :=
  { s with ClimbLadderToTopEnd := false }

/-! ## Input sequences -/

/-- Presses of the weapon inputs, each with what the world answers to it. -/
inductive WeaponInput
  | Shoot (w : ShotWorld)
  | AutoFire (DeltaTimeSeconds : ℚ) (w : ShotWorld)
  | Reload
  | Swaped
  | Swaped2

/-- One weapon input applied to the character. -/
def WeaponInput.apply : WeaponInput → State → Except State State
  | .Shoot w, s => (SoldCamp.Shoot w s).map Prod.fst
  | .AutoFire dt w, s => (SoldCamp.AutoFire dt w s).map Prod.fst
  | .Reload, s => .ok (SoldCamp.Reload s)
  | .Swaped, s => .ok (SoldCamp.Swaped s)
  | .Swaped2, s => .ok (SoldCamp.Swaped2 s)

/-- A sequence of weapon inputs; a fault ends the run in the faulting state. -/
def runWeaponInputs : List WeaponInput → State → Except State State
  | [], s => .ok s
  | i :: rest, s =>
    match i.apply s with
    | .ok s => runWeaponInputs rest s
    | .error s => .error s

/-- Presses of the two stance inputs. -/
inductive StanceInput
  | Crouched
  | Crawled
  deriving DecidableEq, Repr

/-- One stance input applied to the character. -/
def StanceInput.apply : StanceInput → State → State
  | .Crouched, s => SoldCamp.Crouched s
  | .Crawled, s => SoldCamp.Crawled s

/-- A sequence of stance inputs, first press first. -/
def runStanceInputs (l : List StanceInput) (s : State) : State :=
  l.foldl (fun s i => i.apply s) s

/-- Presses of the aim and cover inputs.  A cover press carries the results of the wall
traces of the frame before it. -/
inductive AimCoverInput
  | Aimed
  | Covered (Result_l Result_r Result : Bool)
  deriving DecidableEq, Repr

/-- One aim or cover input applied to the character. -/
def AimCoverInput.apply : AimCoverInput → State → Except State State
  | .Aimed, s => SoldCamp.Aimed s
  | .Covered l r c, s => .ok (SoldCamp.Covered (senseWalls l r c s))

/-- A sequence of aim and cover inputs; a fault ends the run in the faulting state. -/
def runAimCoverInputs : List AimCoverInput → State → Except State State
  | [], s => .ok s
  | i :: rest, s =>
    match i.apply s with
    | .ok s => runAimCoverInputs rest s
    | .error s => .error s

/-! ## Predicates used in the statements -/

/-- Modelled from the spec: the header that gives the mode flags their initial values is not
under src/; the spec takes the spawn state to be the one with all mode flags false. -/
def ModeFlagsClear (s : State) : Prop :=
  s.ShouldAim = false ∧ s.ShouldCrouch = false ∧ s.ShouldCrawl = false ∧
  s.CurrentCover = false ∧ s.CurrentCrouchCover = false ∧
  s.CoverAimable = false ∧ s.CrouchCoverAimable = false ∧ s.ShouldTakeOver = false ∧
  s.ShouldClimb = false ∧ s.Reloading = false ∧ s.Dying = false ∧
  s.bHitFront = false ∧ s.bHitBack = false

instance (s : State) : Decidable (ModeFlagsClear s) := by
  unfold ModeFlagsClear; infer_instance

/-- A rational that is a whole number. -/
def IsWhole (q : ℚ) : Prop := q.den = 1

instance (q : ℚ) : Decidable (IsWhole q) := by
  unfold IsWhole; infer_instance

/-- Both ammunition counters are whole numbers between zero and their maxima. -/
def AmmoInBounds (s : State) : Prop :=
  (IsWhole s.CurrentBullet_Pistol ∧ 0 ≤ s.CurrentBullet_Pistol ∧
    s.CurrentBullet_Pistol ≤ s.MaxBullet_Pistol) ∧
  (IsWhole s.CurrentBullet_Rifle ∧ 0 ≤ s.CurrentBullet_Rifle ∧
    s.CurrentBullet_Rifle ≤ s.MaxBullet_Rifle)

/-- Both ammunition maxima are whole numbers. -/
def MaxAmmoWhole (s : State) : Prop :=
  IsWhole s.MaxBullet_Pistol ∧ IsWhole s.MaxBullet_Rifle

/-- A character as its constructor and class defaults leave it, with sample settings:
player controlled, all references present, pistol selected. -/
def sampleCharacter : State where
  MaxHealth := 100
  CurrentHealth := 0
  MaxBullet_Pistol := 12
  CurrentBullet_Pistol := 0
  MaxBullet_Rifle := 30
  CurrentBullet_Rifle := 0
  Damage := 10
  HeadshootDamage := 100
  CurrentDeltaTime := 0
  TimePerOneShoot := 1 / 10
  RunSpeed := 1 / 2
  CurrentWeaponNum := 0
  CurrentScore := 0
  Dying := false
  bHitFront := false
  bHitBack := false
  ShouldAim := false
  ShouldCrouch := false
  ShouldCrawl := false
  ShouldClimb := false
  ShouldTakeOver := false
  CurrentCover := false
  CurrentCrouchCover := false
  CoverAimable := false
  CrouchCoverAimable := false
  Reloading := false
  LadderClimbDownStart := false
  ClimbLadderToTopEnd := false
  Coverable := false
  CrouchCoverable := false
  Climbable := false
  LadderClimbDownable := false
  Washable := false
  CurrentControllerValid := false
  CurrentAnimInstanceValid := false
  CoverShootMontageValid := true
  Sfx_HeadShootValid := true
  HitParticleValid := true
  PlayerControlled := true
  EnemyAIControlled := false
  CoverShootMontagePlaying := false
  TimerHandle := none
  Hidden := false
  PistolHidden := false
  RifleHidden := false
  Calls := []

/-- The sample character after `BeginPlay` with its own player controller, an animation
instance and an empty save slot. -/
def spawned : State :=
  BeginPlay true true none 0 sampleCharacter

/-- A shot that hits nothing. -/
def missWorld : ShotWorld where
  Trace := none
  Super_TakeDamage := fun d => d

/-- The bounds on the counters together with whole maxima. -/
def AmmoInv (s : State) : Prop :=
  AmmoInBounds s ∧ MaxAmmoWhole s

/-- The sample character after spawn, aiming. -/
def aiming : State :=
  { spawned with ShouldAim := true }

/-- The sample character after spawn with a pistol magazine of two and a half rounds and two
rounds in it. -/
def halfRoundMagazine : State :=
  { spawned with MaxBullet_Pistol := 5 / 2, CurrentBullet_Pistol := 2 }

/-- The sample character as constructed but with the rifle selected. -/
def sampleRifleman : State :=
  { sampleCharacter with CurrentWeaponNum := 1 }

/-- The sample character after spawn, standing in cover. -/
def inCover : State :=
  { spawned with CurrentCover := true, ShouldTakeOver := true, RunSpeed := 0 }

/-- The sample character after spawn with three pistol rounds fired. -/
def threeRoundsFired : State :=
  { spawned with CurrentBullet_Pistol := 9 }

/-- The ammunition data of a character: both counters, both maxima and the weapon index. -/
def ammoView (s : State) : ℚ × ℚ × ℚ × ℚ × ℤ :=
  (s.CurrentBullet_Pistol, s.MaxBullet_Pistol, s.CurrentBullet_Rifle, s.MaxBullet_Rifle,
    s.CurrentWeaponNum)

/-- How many times the character has triggered weapon `w`. -/
def triggered (s : State) (w : Weapon) : ℕ :=
  s.callCount (.GunTriggered w)

/-- The sample character after spawn, hit once in the body and still recovering: health 10
left, `bHitFront` set and `DelayedHitRecovery` pending. -/
def recovering : State :=
  { spawned with
    CurrentHealth := 10
    bHitFront := true
    TimerHandle := some { Callback := .DelayedHitRecovery, Remaining := 1, bLoop := false } }

/-- The amounts of the `TakeDamage` calls the character has made on hit actors, oldest
first. -/
def damageCalls (s : State) : List ℚ :=
  s.Calls.filterMap fun e =>
    match e with
    | .TakeDamageOnHitActor DamageAmount => some DamageAmount
    | _ => none

/-- The character a shot hit, as the shot left it, when the call returned one. -/
def targetAfter : Except State (State × Option State) → Option State
  | .ok (_, t) => t
  | .error _ => none

/-- The sample character after spawn with a score of seven. -/
def scored : State :=
  { spawned with CurrentScore := 7 }

/-- The sample character after spawn when the first player controller is not an
`AMyPlayerController`: player controlled, `CurrentController` null. -/
def noController : State :=
  BeginPlay false true none 0 sampleCharacter

/-- The recovering sample character standing at the shower booth. -/
def recoveringAtShower : State :=
  { recovering with Washable := true }

/-- The sample character after spawn in crouch cover, moved to a wall that allows standing
cover. -/
def crouchCoverAtWall : State :=
  { spawned with
    CurrentCrouchCover := true
    RunSpeed := 0
    Coverable := true
    CrouchCoverable := true }

/-- A shot that hits the body capsule of another character at the given yaw difference;
the engine applies the damage asked for. -/
def bodyHit (target : State) (ShootAngle : ℚ) : ShotWorld where
  Trace := some ⟨.Character target, "CollisionCylinder", ShootAngle⟩
  Super_TakeDamage := fun d => d

/-- A shot that hits the head capsule of another character; the engine applies the damage
asked for. -/
def headHit (target : State) : ShotWorld where
  Trace := some ⟨.Character target, "HeadshootZone", 0⟩
  Super_TakeDamage := fun d => d

/-- The member function a timer callback names, run on the character.  `DelayedDestroy`
calls `Destroy()`, after which no character is left. -/
def TimerCallback.run : TimerCallback → State → Option State
  | .DelayedDestroy, _ => none
  | .DelayedHitRecovery, s => some (SoldCamp.DelayedHitRecovery s)
  | .ShowCharacterReturn, s => some (SoldCamp.ShowCharacterReturn s)
  | .ModeChangeToWalking, s => some (SoldCamp.ModeChangeToWalking s)

/-- The timer on the handle elapses: its callback runs, and a timer that does not repeat is
gone from the handle.  `none` when no timer is on the handle or the callback destroys the
character. -/
def fireTimer (s : State) : Option State :=
  match s.TimerHandle with
  | none => none
  | some t => t.Callback.run (if t.bLoop then s else { s with TimerHandle := none })

/-- The sample rifleman after spawn (rifle selected and visible, pistol hidden), standing at
the shower booth. -/
def riflemanAtShower : State :=
  { BeginPlay true true none 0 sampleRifleman with Washable := true }

/-- The sample character after spawn (pistol selected and visible, rifle hidden), standing
at the shower booth. -/
def pistolAtShower : State :=
  { spawned with Washable := true }

/-! ## Single precision

A `float` is an IEEE single-precision number: 24 significant bits, round to nearest, a tie
to the even neighbour, spacing `2 ^ (-149)` below the normal range.  Values are finite:
overflow to infinity and NaN are not represented. -/

/-- Round to the nearest integer, a tie to the even neighbour. -/
def roundHalfEven (t : ℚ) : ℤ :=
  if t - ⌊t⌋ < 1 / 2 then ⌊t⌋
  else if 1 / 2 < t - ⌊t⌋ then ⌊t⌋ + 1
  else if ⌊t⌋ % 2 = 0 then ⌊t⌋ else ⌊t⌋ + 1

/-- The spacing of single-precision numbers at the magnitude of `q`: `2 ^ (e - 23)` where
`2 ^ e ≤ |q| < 2 ^ (e + 1)`, and `2 ^ (-149)` for the subnormal range. -/
def ulp (q : ℚ) : ℚ :=
  (2 : ℚ) ^ (max (Int.log 2 |q| - 23) (-149))

/-- The single-precision result of an operation whose exact result is `q`, for results
within the finite range. -/
def roundFloat (q : ℚ) : ℚ :=
  roundHalfEven (q / ulp q) * ulp q

/-- The largest finite single-precision number, `(2 ^ 24 - 1) * 2 ^ 104`. -/
def maxFloat : ℚ := (2 ^ 24 - 1) * 2 ^ 104

/-- A rational that a `float` holds exactly: rounding leaves it as it is and it lies within
the finite range. -/
def IsSingle (q : ℚ) : Prop := roundFloat q = q ∧ |q| ≤ maxFloat

instance (q : ℚ) : Decidable (IsSingle q) := by
  unfold IsSingle; infer_instance

namespace Single

/-- `TakeDamage`, with `CurrentHealth -= DamageToApply` and the literal `1.26f` in single
precision. -/
def TakeDamage (Super_TakeDamage : ℚ → ℚ) (DamageAmount : ℚ) (s : State) : ℚ × State :=
  let DamageToApply := Super_TakeDamage DamageAmount
  let s := { s with CurrentHealth := roundFloat (s.CurrentHealth - DamageToApply) }
  if s.CurrentHealth ≤ 0 then
    let s := { s with Dying := true }
    let s := if s.EnemyAIControlled then s.call .SetBlackboardDeadMode else s
    let s := if s.Sfx_HeadShootValid then s.call .PlaySound_HeadShoot else s
    let s := s.call .DestroyPistol
    let s :=
      if IsTimerActive s = false then SetTimer s .DelayedDestroy 3 false else s
    (DamageToApply, s)
  else if s.CurrentHealth > 0 then
    if s.bHitFront = true ∨ s.bHitBack = true then
      let s := if s.EnemyAIControlled then s.call (.SetBlackboardHitMode true) else s
      let s :=
        if IsTimerActive s = false then
          SetTimer s .DelayedHitRecovery (roundFloat (126 / 100)) false
        else s
      (DamageToApply, s)
    else (DamageToApply, s)
  else (DamageToApply, s)

/-- `TriggerCurrentWeapon`, with `CurrentBullet_Pistol--` and `CurrentBullet_Rifle--` in
single precision. -/
def TriggerCurrentWeapon (s : State) : State :=
  if s.CurrentWeaponNum = 0 then
    let s := s.call (.GunTriggered .MyPistol)
    { s with CurrentBullet_Pistol := roundFloat (s.CurrentBullet_Pistol - 1) }
  else if s.CurrentWeaponNum = 1 then
    let s := s.call (.GunTriggered .MyRifle)
    { s with CurrentBullet_Rifle := roundFloat (s.CurrentBullet_Rifle - 1) }
  else s

/-- `Shoot_HitCheck`, with the damage applied by the single-precision `TakeDamage`. -/
def Shoot_HitCheck (w : ShotWorld) (s : State) : Except State (State × Option State) :=
  let traced : Except State State :=
    if s.PlayerControlled = true then
      -- CurrentController->GetPlayerViewPoint(Location, Rotation)
      if s.CurrentControllerValid then RotateCharacterToAim s else .error s
    else .ok s
  match traced with
  | .error s => .error s
  | .ok s =>
    match w.Trace with
    | none => .ok (s, none)
    | some Hit =>
      let s := MakeMuzzleFlash s
      match Hit.Actor with
      | .Null => .ok (s, none)
      | .NotACharacter => .ok (s, none)
      | .Self =>
        if Hit.ComponentName = "HeadshootZone" then
          let s := s.call (.TakeDamageOnHitActor s.HeadshootDamage)
          .ok ((TakeDamage w.Super_TakeDamage s.HeadshootDamage s).2, none)
        else
          let s := s.call (.TakeDamageOnHitActor s.Damage)
          let s := (TakeDamage w.Super_TakeDamage s.Damage s).2
          .ok (CheckFrontBackHit Hit.ShootAngle s, none)
      | .Character target =>
        if Hit.ComponentName = "HeadshootZone" then
          let s := s.call (.TakeDamageOnHitActor s.HeadshootDamage)
          .ok (s, some (TakeDamage w.Super_TakeDamage s.HeadshootDamage target).2)
        else
          let s := s.call (.TakeDamageOnHitActor s.Damage)
          let target := (TakeDamage w.Super_TakeDamage s.Damage target).2
          .ok (s, some (CheckFrontBackHit Hit.ShootAngle target))

/-- `Shoot`, with the single-precision `TriggerCurrentWeapon` and `Shoot_HitCheck`. -/
def Shoot (w : ShotWorld) (s : State) : Except State (State × Option State) :=
  if !s.CurrentAnimInstanceValid then .ok (s, none)
  else if !s.CoverShootMontageValid then .ok (s, none)
  else if s.ShouldAim = false then .ok (s, none)
  else
    let (isEmptyBullet, s) := Shoot_BulletEmptyCheck s
    if isEmptyBullet = true then .ok (s, none)
    else
      let s := if s.CoverAimable = true then Shoot_PlayCoverShootAnim s else s
      let s := TriggerCurrentWeapon s
      Shoot_HitCheck w s

end Single

/-- The sample character after spawn with a health of `2 ^ 24`. -/
def healthTwoPow24 : State :=
  { spawned with
    MaxHealth := 16777216
    CurrentHealth := 16777216 }

/-- The aiming sample character with a pistol magazine of `2 ^ 25` rounds, full. -/
def ammoTwoPow25 : State :=
  { aiming with
    MaxBullet_Pistol := 33554432
    CurrentBullet_Pistol := 33554432 }

/-! ## Damage: health, death flag and the destruction timer -/

/-- `TakeDamage` lowers `CurrentHealth` by what the base `TakeDamage` returned. -/
theorem TakeDamage_CurrentHealth (Super_TakeDamage : ℚ → ℚ) (DamageAmount : ℚ) (s : State) :
    (TakeDamage Super_TakeDamage DamageAmount s).2.CurrentHealth
      = s.CurrentHealth - Super_TakeDamage DamageAmount := by
  unfold TakeDamage
  simp only []
  split_ifs <;> rfl

/-- C2, as stated, fails: a lethal hit on a character whose hit-recovery timer is still
pending leaves `DelayedHitRecovery` on the handle, not `DelayedDestroy`. -/
theorem TakeDamage_lethal_keeps_pending_recovery :
    (TakeDamage (fun d => d) 10 recovering).2.CurrentHealth ≤ 0 ∧
    (TakeDamage (fun d => d) 10 recovering).2.TimerHandle
      = some { Callback := .DelayedHitRecovery, Remaining := 1, bLoop := false } ∧
    (TakeDamage (fun d => d) 10 recovering).2.TimerHandle
      ≠ some { Callback := .DelayedDestroy, Remaining := 3, bLoop := false } := by
  simp [TakeDamage, recovering, IsTimerActive, SetTimer, State.call, spawned, BeginPlay,
    LoadPlayerData, sampleCharacter]

/-- C2, amended: when `TakeDamage` leaves `CurrentHealth` at most zero and no timer is
active on the handle before the call, a non-repeating `DelayedDestroy` with a delay of
3 seconds is on the handle after it; a timer that was active before the call stays. -/
theorem TakeDamage_schedules_DelayedDestroy (Super_TakeDamage : ℚ → ℚ) (DamageAmount : ℚ)
    (s : State) (hdead : (TakeDamage Super_TakeDamage DamageAmount s).2.CurrentHealth ≤ 0) :
    (IsTimerActive s = false →
      (TakeDamage Super_TakeDamage DamageAmount s).2.TimerHandle
        = some { Callback := .DelayedDestroy, Remaining := 3, bLoop := false }) ∧
    (∀ t, s.TimerHandle = some t →
      (TakeDamage Super_TakeDamage DamageAmount s).2.TimerHandle = some t) := by
  have h : s.CurrentHealth - Super_TakeDamage DamageAmount ≤ 0 := by
    rw [TakeDamage_CurrentHealth] at hdead; exact hdead
  unfold TakeDamage
  simp only [h, if_true]
  constructor
  · intro hno
    have hno' : s.TimerHandle = none := by
      simpa [IsTimerActive] using hno
    split_ifs <;> simp_all [IsTimerActive, SetTimer, State.call]
  · intro t ht
    split_ifs <;> simp_all [IsTimerActive, SetTimer, State.call]

/-- Witness for C2 (amended): a lethal hit on the freshly spawned sample character. -/
theorem TakeDamage_schedules_DelayedDestroy_witness :
    (TakeDamage (fun d => d) 100 spawned).2.CurrentHealth ≤ 0 ∧
    ((IsTimerActive spawned = false →
      (TakeDamage (fun d => d) 100 spawned).2.TimerHandle
        = some { Callback := .DelayedDestroy, Remaining := 3, bLoop := false }) ∧
    (∀ t, spawned.TimerHandle = some t →
      (TakeDamage (fun d => d) 100 spawned).2.TimerHandle = some t)) :=
  have hdead : (TakeDamage (fun d => d) 100 spawned).2.CurrentHealth ≤ 0 := by
    simp [TakeDamage, spawned, BeginPlay, LoadPlayerData, sampleCharacter, IsTimerActive,
      SetTimer, State.call]
  ⟨hdead, TakeDamage_schedules_DelayedDestroy (fun d => d) 100 spawned hdead⟩

/-! ## Shooting: what a shot leaves alone -/

/-- Recording a call leaves the ammunition data alone. -/
theorem ammoView_call (s : State) (e : Event) : ammoView (s.call e) = ammoView s := rfl

/-- Recording a call raises a trigger count only for a `GunTriggered` of that weapon. -/
theorem triggered_call (s : State) (e : Event) (w : Weapon) :
    triggered (s.call e) w = triggered s w + (if e = .GunTriggered w then 1 else 0) := by
  by_cases h : e = .GunTriggered w
  · subst h
    simp [triggered, State.callCount, State.call]
  · simp [triggered, State.callCount, State.call, h, List.count_cons]

/-- Setting the timer leaves the ammunition data alone. -/
theorem ammoView_SetTimer (s : State) (cb : TimerCallback) (r : ℚ) (b : Bool) :
    ammoView (SetTimer s cb r b) = ammoView s := rfl

/-- Setting the timer leaves the trigger counts alone. -/
theorem triggered_SetTimer (s : State) (cb : TimerCallback) (r : ℚ) (b : Bool) (w : Weapon) :
    triggered (SetTimer s cb r b) w = triggered s w := rfl

/-- `TakeDamage` leaves the ammunition data of the damaged character alone. -/
theorem TakeDamage_ammoView (f : ℚ → ℚ) (a : ℚ) (s : State) :
    ammoView (TakeDamage f a s).2 = ammoView s := by
  unfold TakeDamage
  simp only []
  split_ifs <;> simp [ammoView, SetTimer, State.call]

/-- `TakeDamage` triggers no weapon. -/
theorem TakeDamage_triggered (f : ℚ → ℚ) (a : ℚ) (s : State) (w : Weapon) :
    triggered (TakeDamage f a s).2 w = triggered s w := by
  unfold TakeDamage
  simp only []
  split_ifs <;> simp [triggered, State.callCount, SetTimer, State.call]

/-- `MakeMuzzleFlash` leaves the ammunition data alone. -/
theorem MakeMuzzleFlash_ammoView (s : State) : ammoView (MakeMuzzleFlash s) = ammoView s := by
  unfold MakeMuzzleFlash
  split_ifs <;> rfl

/-- `MakeMuzzleFlash` triggers no weapon. -/
theorem MakeMuzzleFlash_triggered (s : State) (w : Weapon) :
    triggered (MakeMuzzleFlash s) w = triggered s w := by
  unfold MakeMuzzleFlash
  split_ifs <;> simp [triggered_call]

/-- `CheckFrontBackHit` leaves the ammunition data alone. -/
theorem CheckFrontBackHit_ammoView (a : ℚ) (s : State) :
    ammoView (CheckFrontBackHit a s) = ammoView s := by
  unfold CheckFrontBackHit
  split_ifs <;> rfl

/-- `CheckFrontBackHit` triggers no weapon. -/
theorem CheckFrontBackHit_triggered (a : ℚ) (s : State) (w : Weapon) :
    triggered (CheckFrontBackHit a s) w = triggered s w := by
  unfold CheckFrontBackHit
  split_ifs <;> rfl

/-- `Shoot_PlayCoverShootAnim` leaves the ammunition data alone. -/
theorem Shoot_PlayCoverShootAnim_ammoView (s : State) :
    ammoView (Shoot_PlayCoverShootAnim s) = ammoView s := by
  unfold Shoot_PlayCoverShootAnim
  split_ifs <;> rfl

/-- `Shoot_PlayCoverShootAnim` triggers no weapon. -/
theorem Shoot_PlayCoverShootAnim_triggered (s : State) (w : Weapon) :
    triggered (Shoot_PlayCoverShootAnim s) w = triggered s w := by
  unfold Shoot_PlayCoverShootAnim
  split_ifs
  · show triggered (s.call .Montage_Play_CoverShoot) w = _
    simp [triggered_call]
  · rfl

/-- The hit check leaves the shooter's ammunition data and trigger counts as they were,
whether it returns or faults. -/
theorem Shoot_HitCheck_shooter (w : ShotWorld) (s : State) :
    ammoView (shooter (Shoot_HitCheck w s)) = ammoView s ∧
    ∀ g, triggered (shooter (Shoot_HitCheck w s)) g = triggered s g := by
  unfold Shoot_HitCheck RotateCharacterToAim
  rcases w with ⟨_ | ⟨actor, name, angle⟩, f⟩
  · simp only []
    split_ifs <;> simp [shooter]
  · cases actor <;> simp only [] <;> split_ifs <;>
      simp [shooter, MakeMuzzleFlash_ammoView, MakeMuzzleFlash_triggered,
        CheckFrontBackHit_ammoView, CheckFrontBackHit_triggered, TakeDamage_ammoView,
        TakeDamage_triggered, ammoView_call, triggered_call]

/-- With a round left in the selected weapon the empty check passes and changes nothing. -/
theorem Shoot_BulletEmptyCheck_loaded (s : State)
    (hP : s.CurrentWeaponNum = 0 → 0 < s.CurrentBullet_Pistol)
    (hR : s.CurrentWeaponNum = 1 → 0 < s.CurrentBullet_Rifle) :
    Shoot_BulletEmptyCheck s = (false, s) := by
  unfold Shoot_BulletEmptyCheck
  have h1 : ¬ (s.CurrentWeaponNum = 0 ∧ s.CurrentBullet_Pistol ≤ 0) :=
    fun h => absurd (hP h.1) (not_lt.mpr h.2)
  have h2 : ¬ (s.CurrentWeaponNum = 1 ∧ s.CurrentBullet_Rifle ≤ 0) :=
    fun h => absurd (hR h.1) (not_lt.mpr h.2)
  rw [if_neg h1, if_neg h2]

/-- Past its guards `Shoot` plays the cover animation when aiming from cover, triggers the
selected weapon and runs the hit check. -/
theorem Shoot_of_loaded (w : ShotWorld) (s : State)
    (hAnim : s.CurrentAnimInstanceValid = true) (hMontage : s.CoverShootMontageValid = true)
    (hAim : s.ShouldAim = true)
    (hP : s.CurrentWeaponNum = 0 → 0 < s.CurrentBullet_Pistol)
    (hR : s.CurrentWeaponNum = 1 → 0 < s.CurrentBullet_Rifle) :
    Shoot w s = Shoot_HitCheck w
      (TriggerCurrentWeapon (if s.CoverAimable = true then Shoot_PlayCoverShootAnim s else s)) := by
  unfold Shoot
  simp [hAnim, hMontage, hAim, Shoot_BulletEmptyCheck_loaded s hP hR]

/-- What `TriggerCurrentWeapon` does to the ammunition data. -/
theorem TriggerCurrentWeapon_ammoView (s : State) :
    ammoView (TriggerCurrentWeapon s) =
      (if s.CurrentWeaponNum = 0 then
        (s.CurrentBullet_Pistol - 1, s.MaxBullet_Pistol, s.CurrentBullet_Rifle,
          s.MaxBullet_Rifle, s.CurrentWeaponNum)
      else if s.CurrentWeaponNum = 1 then
        (s.CurrentBullet_Pistol, s.MaxBullet_Pistol, s.CurrentBullet_Rifle - 1,
          s.MaxBullet_Rifle, s.CurrentWeaponNum)
      else ammoView s) := by
  unfold TriggerCurrentWeapon
  split_ifs <;> rfl

/-- How `TriggerCurrentWeapon` moves the trigger counts. -/
theorem TriggerCurrentWeapon_triggered (s : State) (g : Weapon) :
    triggered (TriggerCurrentWeapon s) g =
      triggered s g +
        (if (s.CurrentWeaponNum = 0 ∧ g = .MyPistol) ∨ (s.CurrentWeaponNum = 1 ∧ g = .MyRifle)
          then 1 else 0) := by
  unfold TriggerCurrentWeapon
  by_cases h0 : s.CurrentWeaponNum = 0
  · rw [if_pos h0]
    show triggered (s.call (.GunTriggered .MyPistol)) g = _
    cases g <;> simp [triggered_call, h0]
  · rw [if_neg h0]
    by_cases h1 : s.CurrentWeaponNum = 1
    · rw [if_pos h1]
      show triggered (s.call (.GunTriggered .MyRifle)) g = _
      cases g <;> simp [triggered_call, h1]
    · simp [h0, h1]

/-- The optional cover animation leaves ammunition data and trigger counts alone. -/
theorem coverAnim_frame (s : State) :
    ammoView (if s.CoverAimable = true then Shoot_PlayCoverShootAnim s else s) = ammoView s ∧
    ∀ g, triggered (if s.CoverAimable = true then Shoot_PlayCoverShootAnim s else s) g
      = triggered s g := by
  split_ifs
  · exact ⟨Shoot_PlayCoverShootAnim_ammoView s, Shoot_PlayCoverShootAnim_triggered s⟩
  · exact ⟨rfl, fun _ => rfl⟩

/-- The hit check returns when the character is not player controlled or has its
`CurrentController`. -/
theorem Shoot_HitCheck_returns (w : ShotWorld) (s : State)
    (h : s.PlayerControlled = false ∨ s.CurrentControllerValid = true) :
    ∃ r, Shoot_HitCheck w s = .ok r := by
  unfold Shoot_HitCheck RotateCharacterToAim
  rcases w with ⟨_ | ⟨actor, name, angle⟩, f⟩
  · rcases h with h | h <;> simp only [h] <;> split_ifs <;> simp_all
  · rcases h with h | h <;> cases actor <;> simp only [h] <;> split_ifs <;> simp_all

/-- The steps of `Shoot` before the hit check leave the controller data alone. -/
theorem TriggerCurrentWeapon_control (s : State) :
    (TriggerCurrentWeapon s).PlayerControlled = s.PlayerControlled ∧
    (TriggerCurrentWeapon s).CurrentControllerValid = s.CurrentControllerValid := by
  unfold TriggerCurrentWeapon
  split_ifs <;> exact ⟨rfl, rfl⟩

/-- `Shoot_PlayCoverShootAnim` leaves the controller data alone. -/
theorem Shoot_PlayCoverShootAnim_control (s : State) :
    (Shoot_PlayCoverShootAnim s).PlayerControlled = s.PlayerControlled ∧
    (Shoot_PlayCoverShootAnim s).CurrentControllerValid = s.CurrentControllerValid := by
  unfold Shoot_PlayCoverShootAnim
  split_ifs <;> exact ⟨rfl, rfl⟩

/-- `Shoot_BulletEmptyCheck` leaves the controller data alone. -/
theorem Shoot_BulletEmptyCheck_control (s : State) :
    (Shoot_BulletEmptyCheck s).2.PlayerControlled = s.PlayerControlled ∧
    (Shoot_BulletEmptyCheck s).2.CurrentControllerValid = s.CurrentControllerValid := by
  unfold Shoot_BulletEmptyCheck
  split_ifs <;> exact ⟨rfl, rfl⟩

/-- `Shoot` returns when the character is not player controlled or has its
`CurrentController`. -/
theorem Shoot_returns (w : ShotWorld) (s : State)
    (h : s.PlayerControlled = false ∨ s.CurrentControllerValid = true) :
    ∃ r, Shoot w s = .ok r := by
  unfold Shoot
  split_ifs
  · exact ⟨_, rfl⟩
  · exact ⟨_, rfl⟩
  · exact ⟨_, rfl⟩
  · rcases hE : Shoot_BulletEmptyCheck s with ⟨b, s1⟩
    have hc := Shoot_BulletEmptyCheck_control s
    rw [hE] at hc
    simp only []
    split_ifs
    · exact ⟨_, rfl⟩
    · apply Shoot_HitCheck_returns
      rw [(TriggerCurrentWeapon_control _).1, (TriggerCurrentWeapon_control _).2,
        (Shoot_PlayCoverShootAnim_control _).1, (Shoot_PlayCoverShootAnim_control _).2,
        hc.1, hc.2]
      exact h
    · apply Shoot_HitCheck_returns
      rw [(TriggerCurrentWeapon_control _).1, (TriggerCurrentWeapon_control _).2, hc.1, hc.2]
      exact h

/-! ## C4: ammunition stays within bounds -/

/-- A rational is whole exactly when it is the cast of an integer. -/
theorem isWhole_iff (q : ℚ) : IsWhole q ↔ ∃ n : ℤ, q = n := by
  unfold IsWhole
  constructor
  · intro h
    exact ⟨q.num, ((Rat.den_eq_one_iff q).mp h).symm⟩
  · rintro ⟨n, rfl⟩
    exact Rat.intCast_den n

/-- One less than a whole number is whole. -/
theorem IsWhole.sub_one {q : ℚ} (h : IsWhole q) : IsWhole (q - 1) := by
  rw [isWhole_iff] at h ⊢
  obtain ⟨n, rfl⟩ := h
  exact ⟨n - 1, by push_cast; ring⟩

/-- A positive whole number is at least one. -/
theorem IsWhole.one_le_of_pos {q : ℚ} (h : IsWhole q) (hpos : 0 < q) : 1 ≤ q := by
  rw [isWhole_iff] at h
  obtain ⟨n, rfl⟩ := h
  have : (0 : ℤ) < n := by exact_mod_cast hpos
  exact_mod_cast this

/-- Two and a half is not a whole number. -/
theorem not_isWhole_five_halves : ¬ IsWhole (5 / 2) := by
  rw [isWhole_iff]
  rintro ⟨n, h⟩
  have h2 : (5 : ℚ) = 2 * n := by linarith
  have h3 : (5 : ℤ) = 2 * n := by exact_mod_cast h2
  omega

/-- The invariant only reads the two counters and the two maxima. -/
theorem AmmoInv_congr {s t : State}
    (h1 : t.CurrentBullet_Pistol = s.CurrentBullet_Pistol)
    (h2 : t.MaxBullet_Pistol = s.MaxBullet_Pistol)
    (h3 : t.CurrentBullet_Rifle = s.CurrentBullet_Rifle)
    (h4 : t.MaxBullet_Rifle = s.MaxBullet_Rifle) (h : AmmoInv s) : AmmoInv t := by
  unfold AmmoInv AmmoInBounds MaxAmmoWhole at *
  rw [h1, h2, h3, h4]
  exact h

/-- States with the same ammunition data satisfy the invariant together. -/
theorem AmmoInv_of_ammoView {s t : State} (hv : ammoView t = ammoView s) (h : AmmoInv s) :
    AmmoInv t := by
  simp only [ammoView, Prod.mk.injEq] at hv
  exact AmmoInv_congr hv.1 hv.2.1 hv.2.2.1 hv.2.2.2.1 h

/-- `Shoot_BulletEmptyCheck` leaves the ammunition data alone. -/
theorem Shoot_BulletEmptyCheck_ammoView (s : State) :
    ammoView (Shoot_BulletEmptyCheck s).2 = ammoView s := by
  unfold Shoot_BulletEmptyCheck
  split_ifs <;> rfl

/-- `Shoot_BulletEmptyCheck` triggers no weapon. -/
theorem Shoot_BulletEmptyCheck_triggered (s : State) (g : Weapon) :
    triggered (Shoot_BulletEmptyCheck s).2 g = triggered s g := by
  unfold Shoot_BulletEmptyCheck
  split_ifs
  · show triggered (s.call _) g = _
    simp [triggered_call]
  · show triggered (s.call _) g = _
    simp [triggered_call]
  · rfl

/-- When the empty check reports an empty weapon, or a guard of `Shoot` fails, the shot
changes no ammunition data and triggers nothing. -/
theorem Shoot_not_fired (w : ShotWorld) (s : State)
    (h : s.CurrentAnimInstanceValid = false ∨ s.CoverShootMontageValid = false ∨
      s.ShouldAim = false ∨ (Shoot_BulletEmptyCheck s).1 = true) :
    Shoot w s = .ok ((if s.CurrentAnimInstanceValid = true ∧ s.CoverShootMontageValid = true ∧
        s.ShouldAim = true then (Shoot_BulletEmptyCheck s).2 else s), none) := by
  unfold Shoot
  by_cases hA : s.CurrentAnimInstanceValid = true
  · by_cases hM : s.CoverShootMontageValid = true
    · by_cases hS : s.ShouldAim = true
      · have hE : (Shoot_BulletEmptyCheck s).1 = true := by
          rcases h with h | h | h | h
          · rw [hA] at h; exact absurd h (by decide)
          · rw [hM] at h; exact absurd h (by decide)
          · rw [hS] at h; exact absurd h (by decide)
          · exact h
        rcases hB : Shoot_BulletEmptyCheck s with ⟨b, s1⟩
        rw [hB] at hE
        simp only at hE
        subst hE
        simp [hA, hM, hS]
      · simp [hA, hM, hS]
    · simp [hA, hM]
  · simp [hA]

/-- The empty check reports an empty weapon exactly when the selected one has no round. -/
theorem Shoot_BulletEmptyCheck_fst (s : State) :
    (Shoot_BulletEmptyCheck s).1 = true ↔
      (s.CurrentWeaponNum = 0 ∧ s.CurrentBullet_Pistol ≤ 0) ∨
      (s.CurrentWeaponNum = 1 ∧ s.CurrentBullet_Rifle ≤ 0) := by
  unfold Shoot_BulletEmptyCheck
  split_ifs with h1 h2
  · simp [h1]
  · simp [h1, h2]
  · simp [h1, h2]

/-- The ammunition data after a shot that passed the guards with a loaded weapon. -/
theorem Shoot_fired_ammoView (w : ShotWorld) (s : State)
    (hAnim : s.CurrentAnimInstanceValid = true) (hMontage : s.CoverShootMontageValid = true)
    (hAim : s.ShouldAim = true)
    (hP : s.CurrentWeaponNum = 0 → 0 < s.CurrentBullet_Pistol)
    (hR : s.CurrentWeaponNum = 1 → 0 < s.CurrentBullet_Rifle) :
    ammoView (shooter (Shoot w s)) =
      (if s.CurrentWeaponNum = 0 then
        (s.CurrentBullet_Pistol - 1, s.MaxBullet_Pistol, s.CurrentBullet_Rifle,
          s.MaxBullet_Rifle, s.CurrentWeaponNum)
      else if s.CurrentWeaponNum = 1 then
        (s.CurrentBullet_Pistol, s.MaxBullet_Pistol, s.CurrentBullet_Rifle - 1,
          s.MaxBullet_Rifle, s.CurrentWeaponNum)
      else ammoView s) := by
  rw [Shoot_of_loaded w s hAnim hMontage hAim hP hR]
  obtain ⟨hv, -⟩ := Shoot_HitCheck_shooter w
    (TriggerCurrentWeapon (if s.CoverAimable = true then Shoot_PlayCoverShootAnim s else s))
  obtain ⟨cv, -⟩ := coverAnim_frame s
  rw [hv, TriggerCurrentWeapon_ammoView, cv]
  simp only [ammoView, Prod.mk.injEq] at cv
  rw [cv.1, cv.2.1, cv.2.2.1, cv.2.2.2.1, cv.2.2.2.2]

/-- `Shoot` keeps the ammunition invariant. -/
theorem Shoot_preserves (w : ShotWorld) (s : State) (h : AmmoInv s) :
    AmmoInv (shooter (Shoot w s)) := by
  by_cases hf : s.CurrentAnimInstanceValid = false ∨ s.CoverShootMontageValid = false ∨
      s.ShouldAim = false ∨ (Shoot_BulletEmptyCheck s).1 = true
  · rw [Shoot_not_fired w s hf]
    simp only [shooter]
    split_ifs
    · exact AmmoInv_of_ammoView (Shoot_BulletEmptyCheck_ammoView s) h
    · exact h
  · simp only [not_or, Bool.not_eq_false] at hf
    obtain ⟨hAnim, hMontage, hAim, hE⟩ := hf
    have hP : s.CurrentWeaponNum = 0 → 0 < s.CurrentBullet_Pistol := by
      intro h0
      by_contra hc
      exact hE ((Shoot_BulletEmptyCheck_fst s).mpr (Or.inl ⟨h0, not_lt.mp hc⟩))
    have hR : s.CurrentWeaponNum = 1 → 0 < s.CurrentBullet_Rifle := by
      intro h1
      by_contra hc
      exact hE ((Shoot_BulletEmptyCheck_fst s).mpr (Or.inr ⟨h1, not_lt.mp hc⟩))
    have hv := Shoot_fired_ammoView w s hAnim hMontage hAim hP hR
    obtain ⟨⟨⟨wP, zP, mP⟩, ⟨wR, zR, mR⟩⟩, ⟨xP, xR⟩⟩ := h
    by_cases h0 : s.CurrentWeaponNum = 0
    · rw [if_pos h0] at hv
      simp only [ammoView, Prod.mk.injEq] at hv
      unfold AmmoInv AmmoInBounds MaxAmmoWhole
      rw [hv.1, hv.2.1, hv.2.2.1, hv.2.2.2.1]
      have := wP.one_le_of_pos (hP h0)
      exact ⟨⟨⟨wP.sub_one, by linarith, by linarith⟩, ⟨wR, zR, mR⟩⟩, ⟨xP, xR⟩⟩
    · rw [if_neg h0] at hv
      by_cases h1 : s.CurrentWeaponNum = 1
      · rw [if_pos h1] at hv
        simp only [ammoView, Prod.mk.injEq] at hv
        unfold AmmoInv AmmoInBounds MaxAmmoWhole
        rw [hv.1, hv.2.1, hv.2.2.1, hv.2.2.2.1]
        have := wR.one_le_of_pos (hR h1)
        exact ⟨⟨⟨wP, zP, mP⟩, ⟨wR.sub_one, by linarith, by linarith⟩⟩, ⟨xP, xR⟩⟩
      · rw [if_neg h1] at hv
        exact AmmoInv_of_ammoView hv ⟨⟨⟨wP, zP, mP⟩, ⟨wR, zR, mR⟩⟩, ⟨xP, xR⟩⟩

/-- `AutoFire` keeps the ammunition invariant. -/
theorem AutoFire_preserves (dt : ℚ) (w : ShotWorld) (s : State) (h : AmmoInv s) :
    AmmoInv (shooter (AutoFire dt w s)) := by
  unfold AutoFire
  simp only []
  split_ifs
  · apply Shoot_preserves
    exact AmmoInv_congr rfl rfl rfl rfl h
  · exact AmmoInv_congr rfl rfl rfl rfl h
  · exact h

/-- `Reload` keeps the ammunition invariant. -/
theorem Reload_preserves (s : State) (h : AmmoInv s) : AmmoInv (Reload s) := by
  obtain ⟨⟨⟨wP, zP, mP⟩, ⟨wR, zR, mR⟩⟩, ⟨xP, xR⟩⟩ := h
  unfold Reload
  split_ifs
  · exact ⟨⟨⟨xP, le_trans zP mP, le_refl _⟩, ⟨wR, zR, mR⟩⟩, ⟨xP, xR⟩⟩
  · exact ⟨⟨⟨wP, zP, mP⟩, ⟨xR, le_trans zR mR, le_refl _⟩⟩, ⟨xP, xR⟩⟩
  · exact ⟨⟨⟨wP, zP, mP⟩, ⟨wR, zR, mR⟩⟩, ⟨xP, xR⟩⟩

/-- `Swaped` and `Swaped2` keep the ammunition invariant. -/
theorem Swaped_preserves (s : State) (h : AmmoInv s) :
    AmmoInv (Swaped s) ∧ AmmoInv (Swaped2 s) := by
  constructor
  · exact AmmoInv_congr (s := s) (by simp [Swaped]) (by simp [Swaped]) (by simp [Swaped])
      (by simp [Swaped]) h
  · exact AmmoInv_congr (s := s) (by simp [Swaped2]) (by simp [Swaped2]) (by simp [Swaped2])
      (by simp [Swaped2]) h

/-- Dropping the target from the result of a shot keeps the shooter where the call ended. -/
theorem endState_map_fst (r : Except State (State × Option State)) :
    endState (r.map Prod.fst) = shooter r := by
  rcases r with e | ⟨a, b⟩ <;> rfl

/-- Every weapon input keeps the ammunition invariant. -/
theorem WeaponInput_preserves (i : WeaponInput) (s : State) (h : AmmoInv s) :
    AmmoInv (endState (i.apply s)) := by
  cases i with
  | Shoot w => simpa [WeaponInput.apply, endState_map_fst] using Shoot_preserves w s h
  | AutoFire dt w =>
    simpa [WeaponInput.apply, endState_map_fst] using AutoFire_preserves dt w s h
  | Reload => exact Reload_preserves s h
  | Swaped => exact (Swaped_preserves s h).1
  | Swaped2 => exact (Swaped_preserves s h).2

/-- Every sequence of weapon inputs keeps the ammunition invariant. -/
theorem runWeaponInputs_preserves (l : List WeaponInput) (s : State) (h : AmmoInv s) :
    AmmoInv (endState (runWeaponInputs l s)) := by
  induction l generalizing s with
  | nil => exact h
  | cons i rest ih =>
    have hi := WeaponInput_preserves i s h
    unfold runWeaponInputs
    cases hr : i.apply s with
    | ok s1 =>
      rw [hr] at hi
      exact ih s1 hi
    | error s1 =>
      rw [hr] at hi
      exact hi

/-- With no round in the selected weapon `Shoot` returns without triggering a weapon and
without changing the ammunition data. -/
theorem Shoot_empty (w : ShotWorld) (s : State)
    (h : (s.CurrentWeaponNum = 0 ∧ s.CurrentBullet_Pistol ≤ 0) ∨
      (s.CurrentWeaponNum = 1 ∧ s.CurrentBullet_Rifle ≤ 0)) :
    (∃ r, Shoot w s = .ok r) ∧ ammoView (shooter (Shoot w s)) = ammoView s ∧
    ∀ g, triggered (shooter (Shoot w s)) g = triggered s g := by
  have hf := Shoot_not_fired w s (Or.inr (Or.inr (Or.inr ((Shoot_BulletEmptyCheck_fst s).mpr h))))
  rw [hf]
  refine ⟨⟨_, rfl⟩, ?_, ?_⟩
  · simp only [shooter]
    split_ifs
    · exact Shoot_BulletEmptyCheck_ammoView s
    · rfl
  · intro g
    simp only [shooter]
    split_ifs
    · exact Shoot_BulletEmptyCheck_triggered s g
    · rfl

/-- The cast of an integer is whole. -/
theorem isWhole_intCast (n : ℤ) : IsWhole (n : ℚ) :=
  (isWhole_iff _).mpr ⟨n, rfl⟩

/-- C4, as stated, fails: with a pistol maximum of two and a half rounds the counter starts
whole and within bounds and `Reload` leaves it at two and a half, not a whole number. -/
theorem Reload_breaks_whole_counter :
    AmmoInBounds halfRoundMagazine ∧
    (endState (runWeaponInputs [.Reload] halfRoundMagazine)).CurrentBullet_Pistol = 5 / 2 ∧
    ¬ AmmoInBounds (endState (runWeaponInputs [.Reload] halfRoundMagazine)) := by
  have hcur : (endState (runWeaponInputs [.Reload] halfRoundMagazine)).CurrentBullet_Pistol
      = 5 / 2 := by
    simp [runWeaponInputs, WeaponInput.apply, endState, Reload, State.call, halfRoundMagazine,
      spawned, BeginPlay, LoadPlayerData, sampleCharacter]
  refine ⟨?_, hcur, ?_⟩
  · have h2 : IsWhole (2 : ℚ) := by simpa using isWhole_intCast 2
    have h30 : IsWhole (30 : ℚ) := by simpa using isWhole_intCast 30
    simp only [AmmoInBounds, halfRoundMagazine, spawned, BeginPlay, LoadPlayerData,
      sampleCharacter]
    norm_num [h2, h30]
  · intro h
    have := h.1.1
    rw [hcur] at this
    exact not_isWhole_five_halves this

/-- C4, amended: from any state where both counters are whole numbers between zero and
their maxima and both maxima are whole numbers, every finite sequence of `Shoot`,
`AutoFire`, `Reload`, `Swaped` and `Swaped2` ends in a state where both counters are again
whole numbers between zero and their maxima; and `Shoot` with no round in the selected
weapon returns without triggering a weapon and without changing a counter. -/
theorem ammo_within_bounds (l : List WeaponInput) (s : State)
    (hB : AmmoInBounds s) (hM : MaxAmmoWhole s) :
    AmmoInBounds (endState (runWeaponInputs l s)) ∧
    ∀ (w : ShotWorld) (t : State),
      ((t.CurrentWeaponNum = 0 ∧ t.CurrentBullet_Pistol ≤ 0) ∨
        (t.CurrentWeaponNum = 1 ∧ t.CurrentBullet_Rifle ≤ 0)) →
      (∃ r, Shoot w t = .ok r) ∧ ammoView (shooter (Shoot w t)) = ammoView t ∧
      ∀ g, triggered (shooter (Shoot w t)) g = triggered t g :=
  ⟨(runWeaponInputs_preserves l s ⟨hB, hM⟩).1, fun w t h => Shoot_empty w t h⟩

/-- Witness for C4 (amended): the spawned sample character fires the pistol, reloads,
swaps to the rifle and holds the trigger for a frame. -/
theorem ammo_within_bounds_witness :
    AmmoInBounds aiming ∧ MaxAmmoWhole aiming ∧
    AmmoInBounds (endState (runWeaponInputs
      [.Shoot missWorld, .Reload, .Swaped2, .AutoFire 1 missWorld] aiming)) :=
  have h12 : IsWhole (12 : ℚ) := by simpa using isWhole_intCast 12
  have h30 : IsWhole (30 : ℚ) := by simpa using isWhole_intCast 30
  have hB : AmmoInBounds aiming := by
    simp only [AmmoInBounds, aiming, spawned, BeginPlay, LoadPlayerData, sampleCharacter]
    norm_num [h12, h30]
  have hM : MaxAmmoWhole aiming := by
    simp only [MaxAmmoWhole, aiming, spawned, BeginPlay, LoadPlayerData, sampleCharacter]
    exact ⟨h12, h30⟩
  ⟨hB, hM, (ammo_within_bounds _ aiming hB hM).1⟩

/-! ## C5: reload -/

/-- C5: with the pistol (index 0) or the rifle (index 1) selected, `Reload` sets the selected
weapon's counter to that weapon's maximum and `Reloading` to true, and leaves the other
counter, both maxima, `CurrentHealth` and `CurrentWeaponNum` unchanged. -/
theorem Reload_resets_selected_only (s : State)
    (h : s.CurrentWeaponNum = 0 ∨ s.CurrentWeaponNum = 1) :
    (s.CurrentWeaponNum = 0 →
      (Reload s).CurrentBullet_Pistol = s.MaxBullet_Pistol ∧
      (Reload s).CurrentBullet_Rifle = s.CurrentBullet_Rifle) ∧
    (s.CurrentWeaponNum = 1 →
      (Reload s).CurrentBullet_Rifle = s.MaxBullet_Rifle ∧
      (Reload s).CurrentBullet_Pistol = s.CurrentBullet_Pistol) ∧
    (Reload s).Reloading = true ∧
    (Reload s).MaxBullet_Pistol = s.MaxBullet_Pistol ∧
    (Reload s).MaxBullet_Rifle = s.MaxBullet_Rifle ∧
    (Reload s).CurrentHealth = s.CurrentHealth ∧
    (Reload s).CurrentWeaponNum = s.CurrentWeaponNum := by
  unfold Reload
  rcases h with h | h
  · simp [h, State.call]
  · simp [h, State.call]

/-- Witness for C5: the spawned sample character, three pistol rounds fired, reloads. -/
theorem Reload_resets_selected_only_witness :
    threeRoundsFired.CurrentWeaponNum = 0 ∧
    threeRoundsFired.CurrentBullet_Pistol = 9 ∧
    (Reload threeRoundsFired).CurrentBullet_Pistol = 12 ∧
    (Reload threeRoundsFired).CurrentBullet_Rifle = 30 ∧
    (Reload threeRoundsFired).Reloading = true :=
  have h0 : threeRoundsFired.CurrentWeaponNum = 0 := rfl
  have h := Reload_resets_selected_only threeRoundsFired (Or.inl h0)
  ⟨h0, rfl, (h.1 h0).1, (h.1 h0).2, h.2.2.1⟩

/-! ## C6: spawn -/

/-- C6: whatever `MaxHealth`, `MaxBullet_Pistol` and `MaxBullet_Rifle` are configured to,
after `BeginPlay` the three current counters equal them, and the maxima are as configured. -/
theorem BeginPlay_resets_counters (FirstPlayerControllerIsMine AnimInstance : Bool)
    (slot : Option ℤ) (DefaultMyScore : ℤ) (s : State) :
    (BeginPlay FirstPlayerControllerIsMine AnimInstance slot DefaultMyScore s).CurrentHealth
      = s.MaxHealth ∧
    (BeginPlay FirstPlayerControllerIsMine AnimInstance slot DefaultMyScore s).CurrentBullet_Pistol
      = s.MaxBullet_Pistol ∧
    (BeginPlay FirstPlayerControllerIsMine AnimInstance slot DefaultMyScore s).CurrentBullet_Rifle
      = s.MaxBullet_Rifle ∧
    (BeginPlay FirstPlayerControllerIsMine AnimInstance slot DefaultMyScore s).MaxHealth
      = s.MaxHealth ∧
    (BeginPlay FirstPlayerControllerIsMine AnimInstance slot DefaultMyScore s).MaxBullet_Pistol
      = s.MaxBullet_Pistol ∧
    (BeginPlay FirstPlayerControllerIsMine AnimInstance slot DefaultMyScore s).MaxBullet_Rifle
      = s.MaxBullet_Rifle := by
  unfold BeginPlay LoadPlayerData
  simp only []
  split_ifs <;> simp

/-! ## C7: crouch and prone -/

/-- After `Crouched` the two stance flags are not both set, whatever the state before. -/
theorem Crouched_exclusive (s : State) :
    ¬ ((Crouched s).ShouldCrouch = true ∧ (Crouched s).ShouldCrawl = true) := by
  unfold Crouched
  split_ifs <;> simp_all

/-- After `Crawled` the two stance flags are not both set, whatever the state before. -/
theorem Crawled_exclusive (s : State) :
    ¬ ((Crawled s).ShouldCrouch = true ∧ (Crawled s).ShouldCrawl = true) := by
  unfold Crawled
  split_ifs <;> simp_all

/-- A run of stance inputs from a state without both flags set ends without both set. -/
theorem runStanceInputs_exclusive (l : List StanceInput) (s : State)
    (h : ¬ (s.ShouldCrouch = true ∧ s.ShouldCrawl = true)) :
    ¬ ((runStanceInputs l s).ShouldCrouch = true ∧ (runStanceInputs l s).ShouldCrawl = true) := by
  induction l generalizing s with
  | nil => exact h
  | cons i rest ih =>
    show ¬ ((runStanceInputs rest (i.apply s)).ShouldCrouch = true ∧
      (runStanceInputs rest (i.apply s)).ShouldCrawl = true)
    apply ih
    cases i
    · exact Crouched_exclusive s
    · exact Crawled_exclusive s

/-- C7: in every state, also one with both flags set, `ShouldCrouch` and `ShouldCrawl` are not
both true after `Crouched` and not both true after `Crawled`; and from a spawn state (all
mode flags false) every sequence of `Crouched` and `Crawled` ends in a state where they are
not both true. -/
theorem crouch_crawl_exclusive (s : State) :
    ¬ ((Crouched s).ShouldCrouch = true ∧ (Crouched s).ShouldCrawl = true) ∧
    ¬ ((Crawled s).ShouldCrouch = true ∧ (Crawled s).ShouldCrawl = true) ∧
    ∀ (l : List StanceInput), ModeFlagsClear s →
      ¬ ((runStanceInputs l s).ShouldCrouch = true ∧ (runStanceInputs l s).ShouldCrawl = true) := by
  refine ⟨Crouched_exclusive s, Crawled_exclusive s, fun l hs => ?_⟩
  apply runStanceInputs_exclusive
  rw [hs.2.1]
  simp

/-- Witness for C7: the spawned sample character crouches, goes prone, crouches again. -/
theorem crouch_crawl_exclusive_witness :
    ModeFlagsClear spawned ∧
    (runStanceInputs [.Crouched, .Crawled, .Crouched] spawned).ShouldCrouch = true ∧
    (runStanceInputs [.Crouched, .Crawled, .Crouched] spawned).ShouldCrawl = false ∧
    ¬ ((runStanceInputs [.Crouched, .Crawled, .Crouched] spawned).ShouldCrouch = true ∧
      (runStanceInputs [.Crouched, .Crawled, .Crouched] spawned).ShouldCrawl = true) :=
  have hs : ModeFlagsClear spawned := by decide
  ⟨hs, by decide, by decide, (crouch_crawl_exclusive spawned).2.2 _ hs⟩

/-! ## C8: standing cover and crouch cover -/

/-- C8: for every state and every value of the wall-sensing flags `Coverable` and
`CrouchCoverable`, after `Covered` the flags `CurrentCover` and `CurrentCrouchCover` are
not both true. -/
theorem Covered_cover_exclusive (s : State) (coverable crouchCoverable : Bool) :
    ¬ ((Covered { s with Coverable := coverable, CrouchCoverable := crouchCoverable }).CurrentCover
        = true ∧
      (Covered { s with Coverable := coverable, CrouchCoverable := crouchCoverable }).CurrentCrouchCover
        = true) := by
  unfold Covered
  simp only []
  split_ifs <;> simp_all

/-! ## C9: aiming and cover -/

/-- C9, as stated, fails: from the spawned sample character (all mode flags false), a cover
press at a wall followed by an aim press ends with `ShouldAim` and `CurrentCover` both true. -/
theorem aim_in_cover_reached :
    ModeFlagsClear spawned ∧
    (∃ s, runAimCoverInputs [.Covered true true false, .Aimed] spawned = .ok s) ∧
    (endState (runAimCoverInputs [.Covered true true false, .Aimed] spawned)).ShouldAim = true ∧
    (endState (runAimCoverInputs [.Covered true true false, .Aimed] spawned)).CurrentCover = true :=
  ⟨by decide, ⟨_, rfl⟩, rfl, rfl⟩

/-- C9, amended: aiming and standing cover are separate flags.  `Covered` never changes
`ShouldAim`, `Aimed` never changes `CurrentCover`, and an aim press in standing cover
returns, toggles `CoverAimable` and sets `ShouldAim` to its new value while `CurrentCover`
stays true: aiming from cover has `ShouldAim` and `CurrentCover` both true. -/
theorem Aimed_Covered_separate_flags (s : State) :
    (Covered s).ShouldAim = s.ShouldAim ∧
    (endState (Aimed s)).CurrentCover = s.CurrentCover ∧
    (s.CurrentCover = true →
      Aimed s = .ok (Aim_Covered s) ∧
      (Aim_Covered s).CoverAimable = !s.CoverAimable ∧
      (Aim_Covered s).ShouldAim = !s.CoverAimable ∧
      (Aim_Covered s).CurrentCover = true) := by
  refine ⟨?_, ?_, ?_⟩
  · unfold Covered
    simp only []
    split_ifs <;> rfl
  · unfold Aimed Aim_Covered Aim_CrouchCovered Aim_Normal SwitchHUD_Character
      callCurrentController
    split_ifs <;> simp_all [endState, State.call]
  · intro h
    unfold Aimed Aim_Covered
    rw [if_pos h]
    refine ⟨rfl, ?_, ?_, ?_⟩ <;> split_ifs <;> simp_all

/-- Witness for C9 (amended): the sample character in standing cover presses aim. -/
theorem Aimed_Covered_separate_flags_witness :
    inCover.CurrentCover = true ∧ inCover.CoverAimable = false ∧
    Aimed inCover = .ok (Aim_Covered inCover) ∧
    (Aim_Covered inCover).ShouldAim = true ∧ (Aim_Covered inCover).CurrentCover = true :=
  have hc : inCover.CurrentCover = true := rfl
  have h := (Aimed_Covered_separate_flags inCover).2.2 hc
  ⟨hc, rfl, h.1, h.2.2.1, h.2.2.2⟩

/-! ## C10: the weapon index selects the visible weapon -/

/-- C10: after `BeginPlay` with index 0 the pistol is visible and the rifle hidden, with
index 1 the rifle is visible and the pistol hidden; `Swaped` sets the index to 0 with the
pistol visible and the rifle hidden, `Swaped2` sets it to 1 with the rifle visible and the
pistol hidden; so in each case exactly one weapon is visible, and neither swap changes an
ammunition counter or maximum. -/
theorem weapon_index_selects_visible (s : State) (FirstPlayerControllerIsMine AnimInstance : Bool)
    (slot : Option ℤ) (DefaultMyScore : ℤ) :
    (s.CurrentWeaponNum = 0 →
      (BeginPlay FirstPlayerControllerIsMine AnimInstance slot DefaultMyScore s).PistolHidden
        = false ∧
      (BeginPlay FirstPlayerControllerIsMine AnimInstance slot DefaultMyScore s).RifleHidden
        = true) ∧
    (s.CurrentWeaponNum = 1 →
      (BeginPlay FirstPlayerControllerIsMine AnimInstance slot DefaultMyScore s).PistolHidden
        = true ∧
      (BeginPlay FirstPlayerControllerIsMine AnimInstance slot DefaultMyScore s).RifleHidden
        = false) ∧
    ((Swaped s).CurrentWeaponNum = 0 ∧ (Swaped s).PistolHidden = false ∧
      (Swaped s).RifleHidden = true) ∧
    ((Swaped2 s).CurrentWeaponNum = 1 ∧ (Swaped2 s).PistolHidden = true ∧
      (Swaped2 s).RifleHidden = false) ∧
    ((Swaped s).CurrentBullet_Pistol = s.CurrentBullet_Pistol ∧
      (Swaped s).CurrentBullet_Rifle = s.CurrentBullet_Rifle ∧
      (Swaped s).MaxBullet_Pistol = s.MaxBullet_Pistol ∧
      (Swaped s).MaxBullet_Rifle = s.MaxBullet_Rifle) ∧
    ((Swaped2 s).CurrentBullet_Pistol = s.CurrentBullet_Pistol ∧
      (Swaped2 s).CurrentBullet_Rifle = s.CurrentBullet_Rifle ∧
      (Swaped2 s).MaxBullet_Pistol = s.MaxBullet_Pistol ∧
      (Swaped2 s).MaxBullet_Rifle = s.MaxBullet_Rifle) := by
  refine ⟨?_, ?_, ?_, ?_, ?_, ?_⟩
  · intro h
    simp [BeginPlay, LoadPlayerData, h]
  · intro h
    simp [BeginPlay, LoadPlayerData, h]
  · simp [Swaped]
  · simp [Swaped2]
  · simp [Swaped]
  · simp [Swaped2]

/-- Witness for C10: the sample character spawns with the pistol selected, the sample
rifleman with the rifle selected. -/
theorem weapon_index_selects_visible_witness :
    sampleCharacter.CurrentWeaponNum = 0 ∧ sampleRifleman.CurrentWeaponNum = 1 ∧
    (BeginPlay true true none 0 sampleCharacter).PistolHidden = false ∧
    (BeginPlay true true none 0 sampleCharacter).RifleHidden = true ∧
    (BeginPlay true true none 0 sampleRifleman).PistolHidden = true ∧
    (BeginPlay true true none 0 sampleRifleman).RifleHidden = false :=
  have h0 : sampleCharacter.CurrentWeaponNum = 0 := rfl
  have h1 : sampleRifleman.CurrentWeaponNum = 1 := rfl
  have hp := (weapon_index_selects_visible sampleCharacter true true none 0).1 h0
  have hr := (weapon_index_selects_visible sampleRifleman true true none 0).2.1 h1
  ⟨h0, h1, hp.1, hp.2, hr.1, hr.2⟩

/-! ## C11, C12: the score and the save slot -/

/-- C11: when `SavePlayerData` succeeds in a state with `CurrentScore = s`, a following
`LoadPlayerData` on the slot it leaves sets `CurrentScore` to `s`, on the same character, on
any other character and in the `BeginPlay` of a freshly spawned one; and `SavePlayerData`,
successful or not, never changes `CurrentScore`. -/
theorem score_round_trip (slot : Option ℤ) (DefaultMyScore : ℤ) (s fresh : State)
    (FirstPlayerControllerIsMine AnimInstance : Bool) :
    (LoadPlayerData (SavePlayerData true slot s).1 DefaultMyScore
      (SavePlayerData true slot s).2).CurrentScore = s.CurrentScore ∧
    (LoadPlayerData (SavePlayerData true slot s).1 DefaultMyScore fresh).CurrentScore
      = s.CurrentScore ∧
    (BeginPlay FirstPlayerControllerIsMine AnimInstance (SavePlayerData true slot s).1
      DefaultMyScore fresh).CurrentScore = s.CurrentScore ∧
    ∀ SaveSucceeds, (SavePlayerData SaveSucceeds slot s).2.CurrentScore = s.CurrentScore := by
  refine ⟨?_, ?_, ?_, ?_⟩
  · simp [SavePlayerData, SaveGameToSlot, LoadPlayerData]
  · simp [SavePlayerData, SaveGameToSlot, LoadPlayerData]
  · simp only [BeginPlay, SavePlayerData, SaveGameToSlot, LoadPlayerData]
    split_ifs <;> simp
  · intro b
    unfold SavePlayerData
    simp only []
    split_ifs <;> rfl

/-- C12, as stated, fails: with no loadable save and a default `MyScore` of zero,
`LoadPlayerData` turns a score of seven into zero. -/
theorem LoadPlayerData_failed_load_resets_score :
    scored.CurrentScore = 7 ∧ (LoadPlayerData none 0 scored).CurrentScore = 0 ∧
    (LoadPlayerData none 0 scored).CurrentScore ≠ scored.CurrentScore := by
  refine ⟨rfl, rfl, ?_⟩
  show (0 : ℤ) ≠ 7
  decide

/-- C12, amended: when the save slot cannot be loaded, `LoadPlayerData` sets `CurrentScore`
to the `MyScore` of the default `UMySaveGame` object and changes nothing else; so
`CurrentScore` keeps its value exactly when it already equals that default. -/
theorem LoadPlayerData_failed_load_takes_default (DefaultMyScore : ℤ) (s : State) :
    LoadPlayerData none DefaultMyScore s = { s with CurrentScore := DefaultMyScore } ∧
    (LoadPlayerData none DefaultMyScore s).CurrentScore = DefaultMyScore ∧
    ((LoadPlayerData none DefaultMyScore s).CurrentScore = s.CurrentScore ↔
      s.CurrentScore = DefaultMyScore) := by
  refine ⟨rfl, rfl, ?_⟩
  show DefaultMyScore = s.CurrentScore ↔ s.CurrentScore = DefaultMyScore
  exact eq_comm

/-! ## C13: a pending timer -/

/-- `TakeDamage` leaves a timer that is active on the handle in place. -/
theorem TakeDamage_keeps_pending (f : ℚ → ℚ) (a : ℚ) (s : State) (t : Timer)
    (h : s.TimerHandle = some t) : (TakeDamage f a s).2.TimerHandle = some t := by
  unfold TakeDamage
  simp only []
  split_ifs <;> simp_all [IsTimerActive, SetTimer, State.call]

/-- `UpdateMovementMode` leaves a timer that is active on the handle in place. -/
theorem UpdateMovementMode_keeps_pending (s : State) (t : Timer)
    (h : s.TimerHandle = some t) : (UpdateMovementMode s).TimerHandle = some t := by
  unfold UpdateMovementMode
  simp only []
  split_ifs <;> simp_all [IsTimerActive, SetTimer]

/-- C13: `TakeDamage` and `UpdateMovementMode` keep a pending deferred action, but
`Interacted` at the shower booth replaces it: the recovering sample character has
`DelayedHitRecovery` pending with one second left, and after `Interacted` the handle holds
`ShowCharacterReturn` with three seconds. -/
theorem Interacted_replaces_pending_timer :
    recoveringAtShower.TimerHandle
      = some { Callback := .DelayedHitRecovery, Remaining := 1, bLoop := false } ∧
    (Interacted recoveringAtShower).TimerHandle
      = some { Callback := .ShowCharacterReturn, Remaining := 3, bLoop := false } ∧
    (Interacted recoveringAtShower).TimerHandle ≠ recoveringAtShower.TimerHandle ∧
    (∀ (f : ℚ → ℚ) (a : ℚ) (s : State) (t : Timer), s.TimerHandle = some t →
      (TakeDamage f a s).2.TimerHandle = some t) ∧
    (∀ (s : State) (t : Timer), s.TimerHandle = some t →
      (UpdateMovementMode s).TimerHandle = some t) := by
  refine ⟨rfl, rfl, ?_, TakeDamage_keeps_pending, UpdateMovementMode_keeps_pending⟩
  show (some { Callback := TimerCallback.ShowCharacterReturn, Remaining := 3, bLoop := false }
      : Option Timer)
    ≠ some { Callback := .DelayedHitRecovery, Remaining := 1, bLoop := false }
  simp

/-! ## C14, C17: the HUD switch -/

/-- C14: with a null `CurrentController` the guard of `SwitchHUD_Character` does not return:
the call goes on to the HUD call through the null pointer and faults, for every such state;
so `Aim_Normal` on the player-controlled sample character without `CurrentController`
faults right after setting `ShouldAim`. -/
theorem SwitchHUD_Character_faults_without_controller :
    noController.PlayerControlled = true ∧ noController.CurrentControllerValid = false ∧
    SwitchHUD_Character noController = .error noController ∧
    Aim_Normal noController = .error { noController with ShouldAim := true } ∧
    (∀ s : State, s.CurrentControllerValid = false → SwitchHUD_Character s = .error s) := by
  refine ⟨rfl, rfl, rfl, rfl, ?_⟩
  intro s h
  unfold SwitchHUD_Character callCurrentController
  simp [h]

/-- C17: with a valid `CurrentController` the guard of `SwitchHUD_Character` returns before
either HUD call.  On the player-controlled sample character `Aim_Normal` sets `ShouldAim`
to true without a `TurnOnHUD` call, and from the aiming one sets it to false without a
`TurnOffHUD` call; for every player-controlled state with a valid controller it toggles
`ShouldAim` and issues no call at all, and for a state that is not player controlled it
changes nothing. -/
theorem Aim_Normal_skips_HUD_calls :
    spawned.PlayerControlled = true ∧ spawned.CurrentControllerValid = true ∧
    spawned.ShouldAim = false ∧
    Aim_Normal spawned = .ok { spawned with ShouldAim := true } ∧
    (endState (Aim_Normal spawned)).callCount .TurnOnHUD = 0 ∧
    Aim_Normal aiming = .ok { aiming with ShouldAim := false } ∧
    (endState (Aim_Normal aiming)).callCount .TurnOffHUD = 0 ∧
    (∀ s : State, s.PlayerControlled = true → s.CurrentControllerValid = true →
      Aim_Normal s = .ok { s with ShouldAim := !s.ShouldAim }) ∧
    (∀ s : State, s.PlayerControlled = false → Aim_Normal s = .ok s) := by
  refine ⟨rfl, rfl, rfl, rfl, rfl, rfl, rfl, ?_, ?_⟩
  · intro s hp hc
    unfold Aim_Normal SwitchHUD_Character
    cases hs : s.ShouldAim <;> simp [hp, hc, hs]
  · intro s hp
    unfold Aim_Normal
    simp [hp]

/-! ## C15, C18: front and back hits -/

/-- C15: on a target whose hit flags are clear, `CheckFrontBackHit` with yaw difference `a`
leaves `bHitFront` true exactly when `-180 < a < 0`, leaves `bHitBack` true exactly when
`a ≥ 0`, and never leaves both true. -/
theorem CheckFrontBackHit_classifies (a : ℚ) (target : State)
    (hF : target.bHitFront = false) (hB : target.bHitBack = false) :
    ((CheckFrontBackHit a target).bHitFront = true ↔ (-180 < a ∧ a < 0)) ∧
    ((CheckFrontBackHit a target).bHitBack = true ↔ a ≥ 0) ∧
    ¬ ((CheckFrontBackHit a target).bHitFront = true ∧
      (CheckFrontBackHit a target).bHitBack = true) := by
  unfold CheckFrontBackHit
  by_cases h1 : a < 0 ∧ a > -180
  · rw [if_pos h1]
    have : ¬ a ≥ 0 := not_le.mpr h1.1
    simp [hB, h1.1, h1.2, this]
  · rw [if_neg h1]
    by_cases h2 : a ≥ 0
    · rw [if_pos h2]
      have : ¬ a < 0 := not_lt.mpr h2
      simp [hF, h2, this]
    · rw [if_neg h2]
      have h3 : a < 0 := lt_of_not_ge h2
      have h4 : ¬ -180 < a := fun h => h1 ⟨h3, h⟩
      simp [hF, hB, h2, h4]

/-- Witness for C15: a hit at a yaw difference of minus ninety on the spawned sample
character is a front hit. -/
theorem CheckFrontBackHit_classifies_witness :
    spawned.bHitFront = false ∧ spawned.bHitBack = false ∧
    (CheckFrontBackHit (-90) spawned).bHitFront = true ∧
    ¬ ((CheckFrontBackHit (-90) spawned).bHitFront = true ∧
      (CheckFrontBackHit (-90) spawned).bHitBack = true) :=
  have h := CheckFrontBackHit_classifies (-90) spawned rfl rfl
  ⟨rfl, rfl, h.1.mpr (by norm_num), h.2.2⟩

/-- C18: a yaw difference of minus two hundred lies in the open range from -360 to 360, and
`CheckFrontBackHit` leaves both hit flags of the spawned sample character false; it does
so for every target with clear flags and every yaw difference of -180 or below. -/
theorem CheckFrontBackHit_leaves_unclassified :
    (-360 : ℚ) < -200 ∧ (-200 : ℚ) < 360 ∧
    (CheckFrontBackHit (-200) spawned).bHitFront = false ∧
    (CheckFrontBackHit (-200) spawned).bHitBack = false ∧
    (∀ (a : ℚ) (target : State), a ≤ -180 → target.bHitFront = false →
      target.bHitBack = false →
      (CheckFrontBackHit a target).bHitFront = false ∧
      (CheckFrontBackHit a target).bHitBack = false) := by
  have key : ∀ (a : ℚ) (target : State), a ≤ -180 → target.bHitFront = false →
      target.bHitBack = false →
      (CheckFrontBackHit a target).bHitFront = false ∧
      (CheckFrontBackHit a target).bHitBack = false := by
    intro a target ha hF hB
    unfold CheckFrontBackHit
    have h1 : ¬ (a < 0 ∧ a > -180) := fun h => absurd h.2 (not_lt.mpr ha)
    have h2 : ¬ a ≥ 0 := by
      intro h
      linarith
    rw [if_neg h1, if_neg h2]
    exact ⟨hF, hB⟩
  refine ⟨by norm_num, by norm_num, ?_, ?_, key⟩
  · exact (key (-200) spawned (by norm_num) rfl rfl).1
  · exact (key (-200) spawned (by norm_num) rfl rfl).2

/-! ## C16: headshot and body hit -/

/-- Recording a call adds to the damage calls only when it is a `TakeDamage` on a hit
actor. -/
theorem damageCalls_call (s : State) (e : Event) :
    damageCalls (s.call e) = damageCalls s ++
      (match e with
        | .TakeDamageOnHitActor DamageAmount => [DamageAmount]
        | _ => []) := by
  cases e <;> simp [damageCalls, State.call, List.filterMap_append]

/-- `MakeMuzzleFlash` makes no damage call and leaves the hit flags and damage settings
alone. -/
theorem MakeMuzzleFlash_frame (s : State) :
    damageCalls (MakeMuzzleFlash s) = damageCalls s ∧
    (MakeMuzzleFlash s).bHitFront = s.bHitFront ∧ (MakeMuzzleFlash s).bHitBack = s.bHitBack ∧
    (MakeMuzzleFlash s).Damage = s.Damage ∧
    (MakeMuzzleFlash s).HeadshootDamage = s.HeadshootDamage := by
  unfold MakeMuzzleFlash
  split_ifs
  · refine ⟨?_, rfl, rfl, rfl, rfl⟩
    simp [damageCalls_call]
  · exact ⟨rfl, rfl, rfl, rfl, rfl⟩

/-- `TakeDamage` makes no damage call of its own and leaves the hit flags of the damaged
character alone. -/
theorem TakeDamage_frame (f : ℚ → ℚ) (a : ℚ) (s : State) :
    damageCalls (TakeDamage f a s).2 = damageCalls s ∧
    (TakeDamage f a s).2.bHitFront = s.bHitFront ∧
    (TakeDamage f a s).2.bHitBack = s.bHitBack := by
  unfold TakeDamage
  simp only []
  split_ifs <;> simp [damageCalls, SetTimer, State.call, List.filterMap_append]

/-- `CheckFrontBackHit` makes no damage call. -/
theorem CheckFrontBackHit_damageCalls (a : ℚ) (s : State) :
    damageCalls (CheckFrontBackHit a s) = damageCalls s := by
  unfold CheckFrontBackHit
  split_ifs <;> rfl

/-- Once the view point has been read, the part of `Shoot_HitCheck` before the trace result
is used returns the shooter unchanged. -/
theorem Shoot_HitCheck_of_traced (w : ShotWorld) (s : State)
    (h : s.PlayerControlled = false ∨ s.CurrentControllerValid = true) :
    Shoot_HitCheck w s =
      (match w.Trace with
        | none => .ok (s, none)
        | some Hit =>
          match Hit.Actor with
          | .Null => .ok (MakeMuzzleFlash s, none)
          | .NotACharacter => .ok (MakeMuzzleFlash s, none)
          | .Self =>
            if Hit.ComponentName = "HeadshootZone" then
              .ok ((TakeDamage w.Super_TakeDamage (MakeMuzzleFlash s).HeadshootDamage
                ((MakeMuzzleFlash s).call
                  (.TakeDamageOnHitActor (MakeMuzzleFlash s).HeadshootDamage))).2, none)
            else
              .ok (CheckFrontBackHit Hit.ShootAngle
                (TakeDamage w.Super_TakeDamage (MakeMuzzleFlash s).Damage
                  ((MakeMuzzleFlash s).call
                    (.TakeDamageOnHitActor (MakeMuzzleFlash s).Damage))).2, none)
          | .Character target =>
            if Hit.ComponentName = "HeadshootZone" then
              .ok ((MakeMuzzleFlash s).call
                  (.TakeDamageOnHitActor (MakeMuzzleFlash s).HeadshootDamage),
                some (TakeDamage w.Super_TakeDamage (MakeMuzzleFlash s).HeadshootDamage
                  target).2)
            else
              .ok ((MakeMuzzleFlash s).call (.TakeDamageOnHitActor (MakeMuzzleFlash s).Damage),
                some (CheckFrontBackHit Hit.ShootAngle
                  (TakeDamage w.Super_TakeDamage (MakeMuzzleFlash s).Damage target).2))) := by
  unfold Shoot_HitCheck RotateCharacterToAim
  rcases w with ⟨_ | ⟨actor, name, angle⟩, f⟩
  · rcases h with h | h <;> simp only [h] <;> split_ifs <;> simp_all
  · rcases h with h | h <;> cases actor <;> simp only [h] <;> split_ifs <;> simp_all [State.call]

/-- C16: take a shooter whose hit check gets as far as the trace (not player controlled, or
with its `CurrentController`), so that the check returns.  When the trace hits another
character on the component named "HeadshootZone", that character takes `TakeDamage` exactly
once, with `HeadshootDamage`, and keeps its hit flags; on any other component it takes
`TakeDamage` exactly once, with `Damage`, and then the front/back classification.  The same
holds when the character hit is the shooter itself.  A trace that misses leaves the shooter
as it was and returns no target; a trace that hits no actor or an actor that is not a
character makes no damage call and leaves hit flags and health alone. -/
theorem Shoot_HitCheck_headshot_or_body (s : State) (f : ℚ → ℚ) (name : String) (angle : ℚ)
    (h : s.PlayerControlled = false ∨ s.CurrentControllerValid = true) :
    (∀ w, ∃ r, Shoot_HitCheck w s = .ok r) ∧
    (∀ target : State,
      (name = "HeadshootZone" →
        targetAfter (Shoot_HitCheck ⟨some ⟨.Character target, name, angle⟩, f⟩ s)
          = some (TakeDamage f s.HeadshootDamage target).2 ∧
        damageCalls (shooter (Shoot_HitCheck ⟨some ⟨.Character target, name, angle⟩, f⟩ s))
          = damageCalls s ++ [s.HeadshootDamage] ∧
        (TakeDamage f s.HeadshootDamage target).2.bHitFront = target.bHitFront ∧
        (TakeDamage f s.HeadshootDamage target).2.bHitBack = target.bHitBack) ∧
      (name ≠ "HeadshootZone" →
        targetAfter (Shoot_HitCheck ⟨some ⟨.Character target, name, angle⟩, f⟩ s)
          = some (CheckFrontBackHit angle (TakeDamage f s.Damage target).2) ∧
        damageCalls (shooter (Shoot_HitCheck ⟨some ⟨.Character target, name, angle⟩, f⟩ s))
          = damageCalls s ++ [s.Damage])) ∧
    ((name = "HeadshootZone" →
        damageCalls (shooter (Shoot_HitCheck ⟨some ⟨.Self, name, angle⟩, f⟩ s))
          = damageCalls s ++ [s.HeadshootDamage] ∧
        (shooter (Shoot_HitCheck ⟨some ⟨.Self, name, angle⟩, f⟩ s)).CurrentHealth
          = s.CurrentHealth - f s.HeadshootDamage ∧
        (shooter (Shoot_HitCheck ⟨some ⟨.Self, name, angle⟩, f⟩ s)).bHitFront = s.bHitFront ∧
        (shooter (Shoot_HitCheck ⟨some ⟨.Self, name, angle⟩, f⟩ s)).bHitBack = s.bHitBack) ∧
      (name ≠ "HeadshootZone" →
        shooter (Shoot_HitCheck ⟨some ⟨.Self, name, angle⟩, f⟩ s)
          = CheckFrontBackHit angle
              (TakeDamage f s.Damage
                ((MakeMuzzleFlash s).call (.TakeDamageOnHitActor s.Damage))).2 ∧
        damageCalls (shooter (Shoot_HitCheck ⟨some ⟨.Self, name, angle⟩, f⟩ s))
          = damageCalls s ++ [s.Damage])) ∧
    Shoot_HitCheck ⟨none, f⟩ s = .ok (s, none) ∧
    (∀ actor : HitActor, actor = .Null ∨ actor = .NotACharacter →
      targetAfter (Shoot_HitCheck ⟨some ⟨actor, name, angle⟩, f⟩ s) = none ∧
      damageCalls (shooter (Shoot_HitCheck ⟨some ⟨actor, name, angle⟩, f⟩ s)) = damageCalls s ∧
      (shooter (Shoot_HitCheck ⟨some ⟨actor, name, angle⟩, f⟩ s)).bHitFront = s.bHitFront ∧
      (shooter (Shoot_HitCheck ⟨some ⟨actor, name, angle⟩, f⟩ s)).bHitBack = s.bHitBack ∧
      (shooter (Shoot_HitCheck ⟨some ⟨actor, name, angle⟩, f⟩ s)).CurrentHealth
        = s.CurrentHealth) := by
  obtain ⟨mC, mF, mB, mD, mH⟩ := MakeMuzzleFlash_frame s
  have mHealth : (MakeMuzzleFlash s).CurrentHealth = s.CurrentHealth := by
    unfold MakeMuzzleFlash
    split_ifs <;> rfl
  refine ⟨fun w => Shoot_HitCheck_returns w s h, ?_, ⟨?_, ?_⟩, ?_, ?_⟩
  · intro target
    constructor
    · intro hn
      rw [Shoot_HitCheck_of_traced _ _ h]
      simp only [hn, if_true, targetAfter, shooter, mH]
      refine ⟨trivial, ?_, (TakeDamage_frame _ _ _).2.1, (TakeDamage_frame _ _ _).2.2⟩
      rw [damageCalls_call, mC]
    · intro hn
      rw [Shoot_HitCheck_of_traced _ _ h]
      simp only [hn, if_false, targetAfter, shooter, mD]
      refine ⟨trivial, ?_⟩
      rw [damageCalls_call, mC]
  · intro hn
    rw [Shoot_HitCheck_of_traced _ _ h]
    simp only [hn, if_true, shooter, mH]
    refine ⟨?_, ?_, ?_, ?_⟩
    · rw [(TakeDamage_frame _ _ _).1, damageCalls_call, mC]
    · rw [TakeDamage_CurrentHealth]
      show (MakeMuzzleFlash s).CurrentHealth - _ = _
      rw [mHealth]
    · rw [(TakeDamage_frame _ _ _).2.1]
      exact mF
    · rw [(TakeDamage_frame _ _ _).2.2]
      exact mB
  · intro hn
    rw [Shoot_HitCheck_of_traced _ _ h]
    simp only [hn, if_false, shooter, mD]
    refine ⟨trivial, ?_⟩
    rw [CheckFrontBackHit_damageCalls, (TakeDamage_frame _ _ _).1, damageCalls_call, mC]
  · rw [Shoot_HitCheck_of_traced _ _ h]
  · rintro actor (rfl | rfl) <;> rw [Shoot_HitCheck_of_traced _ _ h] <;>
      exact ⟨rfl, mC, mF, mB, mHealth⟩

/-- Witness for C16: the aiming sample character lands a headshot on another freshly
spawned sample character. -/
theorem Shoot_HitCheck_headshot_or_body_witness :
    (aiming.PlayerControlled = false ∨ aiming.CurrentControllerValid = true) ∧
    targetAfter (Shoot_HitCheck (headHit spawned) aiming)
      = some (TakeDamage (fun d => d) 100 spawned).2 ∧
    damageCalls (shooter (Shoot_HitCheck (headHit spawned) aiming)) = [100] :=
  have h : aiming.PlayerControlled = false ∨ aiming.CurrentControllerValid = true :=
    Or.inr rfl
  have hh := ((Shoot_HitCheck_headshot_or_body aiming (fun d => d) "HeadshootZone" 0 h).2.1
    spawned).1 rfl
  ⟨h, hh.1, hh.2.1⟩

/-! ## C19: hit recovery after a body hit -/

/-- With clear hit flags and a health that stays above zero, `TakeDamage` sets no timer. -/
theorem TakeDamage_unflagged_sets_no_timer (f : ℚ → ℚ) (a : ℚ) (target : State)
    (hF : target.bHitFront = false) (hB : target.bHitBack = false)
    (hT : target.TimerHandle = none) (hAlive : 0 < target.CurrentHealth - f a) :
    (TakeDamage f a target).2.TimerHandle = none := by
  unfold TakeDamage
  have h1 : ¬ target.CurrentHealth - f a ≤ 0 := not_le.mpr hAlive
  simp [h1, hF, hB, hT]

/-- C19: a first body hit leaves the hit flag set with no recovery pending.  The aiming
sample character hits the body of a freshly spawned one (clear hit flags, nothing pending,
health 100) at a yaw difference of minus ninety: the target survives with health 90,
`bHitFront` is set, and its timer handle is still empty.  The same holds for every
surviving target with clear flags and nothing pending: `TakeDamage` runs before the
classification and schedules `DelayedHitRecovery` only when a flag is already set. -/
theorem first_body_hit_schedules_no_recovery :
    spawned.bHitFront = false ∧ spawned.bHitBack = false ∧ spawned.TimerHandle = none ∧
    (targetAfter (Shoot_HitCheck (bodyHit spawned (-90)) aiming)).map
        (fun t => (t.CurrentHealth, t.bHitFront, t.bHitBack, t.TimerHandle))
      = some (90, true, false, none) ∧
    (∀ (s target : State) (f : ℚ → ℚ) (name : String) (angle : ℚ),
      (s.PlayerControlled = false ∨ s.CurrentControllerValid = true) →
      name ≠ "HeadshootZone" →
      target.bHitFront = false → target.bHitBack = false → target.TimerHandle = none →
      0 < target.CurrentHealth - f s.Damage →
      ∃ t, targetAfter (Shoot_HitCheck ⟨some ⟨.Character target, name, angle⟩, f⟩ s) = some t ∧
        t.TimerHandle = none) := by
  have general : ∀ (s target : State) (f : ℚ → ℚ) (name : String) (angle : ℚ),
      (s.PlayerControlled = false ∨ s.CurrentControllerValid = true) →
      name ≠ "HeadshootZone" →
      target.bHitFront = false → target.bHitBack = false → target.TimerHandle = none →
      0 < target.CurrentHealth - f s.Damage →
      ∃ t, targetAfter (Shoot_HitCheck ⟨some ⟨.Character target, name, angle⟩, f⟩ s) = some t ∧
        t.TimerHandle = none := by
    intro s target f name angle h hn hF hB hT hAlive
    obtain ⟨-, -, -, mD, -⟩ := MakeMuzzleFlash_frame s
    rw [Shoot_HitCheck_of_traced _ _ h]
    simp only [hn, if_false, targetAfter, mD]
    refine ⟨_, rfl, ?_⟩
    have := TakeDamage_unflagged_sets_no_timer f s.Damage target hF hB hT hAlive
    unfold CheckFrontBackHit
    split_ifs <;> exact this
  refine ⟨rfl, rfl, rfl, ?_, general⟩
  have h : aiming.PlayerControlled = false ∨ aiming.CurrentControllerValid = true :=
    Or.inr rfl
  have e : bodyHit spawned (-90)
      = ⟨some ⟨.Character spawned, "CollisionCylinder", -90⟩, fun d => d⟩ := rfl
  rw [e, Shoot_HitCheck_of_traced _ _ h]
  simp [targetAfter, MakeMuzzleFlash, State.call, CheckFrontBackHit, TakeDamage, aiming,
    spawned, BeginPlay, LoadPlayerData, sampleCharacter]
  norm_num

/-! ## C20: run speed in cover -/

/-- C20: the sample character in crouch cover at a wall that allows standing cover presses
cover: it ends in standing cover with a `RunSpeed` of one half, not zero.  This happens in
every state with `Coverable` true, `CurrentCover` false and `CurrentCrouchCover` true: the
branch that enters standing cover sets `RunSpeed` to zero and the branch that leaves crouch
cover then sets it to one half.  In every other state a character in cover after `Covered`
has `RunSpeed` zero, and a character that left cover into neither mode has one half. -/
theorem Covered_enters_cover_with_run_speed :
    crouchCoverAtWall.CurrentCrouchCover = true ∧ crouchCoverAtWall.Coverable = true ∧
    (Covered crouchCoverAtWall).CurrentCover = true ∧
    (Covered crouchCoverAtWall).CurrentCrouchCover = false ∧
    (Covered crouchCoverAtWall).RunSpeed = 1 / 2 ∧
    (Covered crouchCoverAtWall).RunSpeed ≠ 0 ∧
    (∀ s : State, s.Coverable = true → s.CurrentCover = false → s.CurrentCrouchCover = true →
      (Covered s).CurrentCover = true ∧ (Covered s).RunSpeed = 1 / 2) ∧
    (∀ s : State, ¬ (s.Coverable = true ∧ s.CurrentCover = false ∧ s.CurrentCrouchCover = true) →
      ((Covered s).CurrentCover = true ∨ (Covered s).CurrentCrouchCover = true) →
      (Covered s).RunSpeed = 0) ∧
    (∀ s : State, (s.CurrentCover = true ∨ s.CurrentCrouchCover = true) →
      (Covered s).CurrentCover = false → (Covered s).CurrentCrouchCover = false →
      (Covered s).RunSpeed = 1 / 2) := by
  have general : ∀ s : State, s.Coverable = true → s.CurrentCover = false →
      s.CurrentCrouchCover = true →
      (Covered s).CurrentCover = true ∧ (Covered s).RunSpeed = 1 / 2 := by
    intro s hc hn hk
    unfold Covered
    simp [hc, hn, hk]
  have hs := general crouchCoverAtWall rfl rfl rfl
  refine ⟨rfl, rfl, hs.1, rfl, hs.2, ?_, general, ?_, ?_⟩
  · rw [hs.2]
    norm_num
  · intro s hne hin
    unfold Covered at hin ⊢
    cases hc : s.Coverable <;> cases hn : s.CurrentCover <;> cases hk : s.CurrentCrouchCover <;>
      cases hq : s.CrouchCoverable <;> simp_all
  · intro s hwas h1 h2
    unfold Covered at h1 h2 ⊢
    cases hc : s.Coverable <;> cases hn : s.CurrentCover <;> cases hk : s.CurrentCrouchCover <;>
      cases hq : s.CrouchCoverable <;> simp_all

/-! ## C21: returning from the shower -/

/-- After `Interacted` at the shower booth the deferred `ShowCharacterReturn` runs: the
character and the pistol are shown, the rifle and the weapon index are as they were. -/
theorem shower_return (s : State) (hW : s.Washable = true) :
    ∃ t, fireTimer (Interacted s) = some t ∧ t.Hidden = false ∧ t.PistolHidden = false ∧
      t.RifleHidden = s.RifleHidden ∧ t.CurrentWeaponNum = s.CurrentWeaponNum := by
  unfold Interacted
  simp only []
  split_ifs <;>
    simp_all [fireTimer, SetTimer, TimerCallback.run, ShowCharacterReturn]

/-- C21: the sample rifleman (index 1, rifle visible, pistol hidden, as the index asks)
interacts at the shower booth and the deferred `ShowCharacterReturn` runs: the character is
visible again and so is the pistol, although the index is still 1, so both weapons are
visible.  With the pistol selected the return is consistent (pistol visible, rifle hidden).
In every state at the booth the return shows the character and the pistol and leaves the
rifle and the index as they were: `Interacted` and `ShowCharacterReturn` handle the pistol
only. -/
theorem shower_return_shows_pistol_with_rifle_selected :
    riflemanAtShower.CurrentWeaponNum = 1 ∧ riflemanAtShower.PistolHidden = true ∧
    riflemanAtShower.RifleHidden = false ∧ riflemanAtShower.Washable = true ∧
    (Interacted riflemanAtShower).TimerHandle
      = some { Callback := .ShowCharacterReturn, Remaining := 3, bLoop := false } ∧
    (fireTimer (Interacted riflemanAtShower)).map
        (fun t => (t.Hidden, t.CurrentWeaponNum, t.PistolHidden, t.RifleHidden))
      = some (false, 1, false, false) ∧
    (fireTimer (Interacted pistolAtShower)).map
        (fun t => (t.Hidden, t.CurrentWeaponNum, t.PistolHidden, t.RifleHidden))
      = some (false, 0, false, true) ∧
    (∀ s : State, s.Washable = true →
      ∃ t, fireTimer (Interacted s) = some t ∧ t.Hidden = false ∧ t.PistolHidden = false ∧
        t.RifleHidden = s.RifleHidden ∧ t.CurrentWeaponNum = s.CurrentWeaponNum) :=
  ⟨rfl, rfl, rfl, rfl, rfl, rfl, rfl, shower_return⟩

/-! ## Single precision: rounding -/

/-- Rounding an integer to the nearest integer gives it back. -/
theorem roundHalfEven_intCast (m : ℤ) : roundHalfEven (m : ℚ) = m := by
  unfold roundHalfEven
  simp

/-- The spacing is positive. -/
theorem ulp_pos (q : ℚ) : 0 < ulp q := by
  unfold ulp
  positivity

/-- A whole multiple of the spacing at its own magnitude is held exactly. -/
theorem roundFloat_of_scaled {q : ℚ} {m : ℤ} (h : q / ulp q = m) : roundFloat q = q := by
  unfold roundFloat
  rw [h, roundHalfEven_intCast, ← h]
  exact div_mul_cancel₀ q (ulp_pos q).ne'

/-- The binary exponent of a positive rational between two consecutive powers of two. -/
theorem int_log_two_eq {q : ℚ} {e : ℤ} (hq : 0 < q) (h1 : (2 : ℚ) ^ e ≤ q)
    (h2 : q < (2 : ℚ) ^ (e + 1)) : Int.log 2 q = e := by
  have a : e ≤ Int.log 2 q := by
    apply (Int.zpow_le_iff_le_log (by norm_num) hq).mp
    simpa using h1
  have b : Int.log 2 q < e + 1 := by
    apply (Int.lt_zpow_iff_log_lt (by norm_num) hq).mp
    simpa using h2
  omega

/-- The spacing in the normal range, from the two powers of two around the value. -/
theorem ulp_of_bounds {q : ℚ} {e : ℤ} (hq : 0 < q) (h1 : (2 : ℚ) ^ e ≤ q)
    (h2 : q < (2 : ℚ) ^ (e + 1)) (he : -126 ≤ e) : ulp q = (2 : ℚ) ^ (e - 23) := by
  unfold ulp
  rw [abs_of_pos hq, int_log_two_eq hq h1 h2, max_eq_left (by omega)]

/-- Every natural number below `2 ^ 24` is held exactly. -/
theorem roundFloat_natCast (k : ℕ) (hk : k < 2 ^ 24) : roundFloat (k : ℚ) = k := by
  rcases Nat.eq_zero_or_pos k with rfl | hpos
  · unfold roundFloat roundHalfEven
    simp
  · have hL : Nat.log 2 k < 24 := Nat.log_lt_of_lt_pow hpos.ne' hk
    have hq : (0 : ℚ) < k := by exact_mod_cast hpos
    have hu : ulp (k : ℚ) = ((2 : ℚ) ^ (23 - Nat.log 2 k))⁻¹ := by
      unfold ulp
      rw [abs_of_pos hq, Int.log_natCast, max_eq_left (by omega)]
      rw [← zpow_natCast, ← zpow_neg]
      congr 1
      omega
    apply roundFloat_of_scaled (m := ((k * 2 ^ (23 - Nat.log 2 k) : ℕ) : ℤ))
    rw [hu]
    push_cast
    rw [div_inv_eq_mul]

/-- One less than a positive whole number of at most `2 ^ 24` is held exactly. -/
theorem roundFloat_pred_of_whole {c : ℚ} (hw : IsWhole c) (hpos : 0 < c)
    (hle : c ≤ 16777216) : roundFloat (c - 1) = c - 1 := by
  obtain ⟨n, rfl⟩ := (isWhole_iff c).mp hw
  have hn : (0 : ℤ) < n := by exact_mod_cast hpos
  have hn2 : n ≤ 16777216 := by exact_mod_cast hle
  obtain ⟨k, hk⟩ : ∃ k : ℕ, n - 1 = k := ⟨(n - 1).toNat, by omega⟩
  have hc : ((n : ℚ) - 1) = (k : ℚ) := by
    have : ((n - 1 : ℤ) : ℚ) = ((k : ℤ) : ℚ) := by rw [hk]
    push_cast at this
    exact this
  rw [hc]
  apply roundFloat_natCast
  have : (k : ℤ) < 16777216 := by omega
  have h2 : k < 16777216 := by exact_mod_cast this
  simpa using h2

/-- The single-precision result of `2 ^ 24 - 1 / 2` is `2 ^ 24`: the tie goes to the even
neighbour. -/
theorem roundFloat_two_pow_24_sub_half : roundFloat (16777216 - 1 / 2) = 16777216 := by
  have hq : (0 : ℚ) < 16777216 - 1 / 2 := by norm_num
  have hu : ulp (16777216 - 1 / 2) = 1 := by
    rw [ulp_of_bounds (e := 23) hq (by norm_num) (by norm_num) (by norm_num)]
    norm_num
  unfold roundFloat
  rw [hu]
  have hf : ⌊((16777216 : ℚ) - 1 / 2) / 1⌋ = 16777215 := by
    rw [Int.floor_eq_iff]
    norm_num
  unfold roundHalfEven
  rw [hf]
  norm_num

/-- The single-precision result of `2 ^ 25 - 1` is `2 ^ 25`: the spacing there is 2 and the
tie goes to the even neighbour. -/
theorem roundFloat_two_pow_25_sub_one : roundFloat (33554432 - 1) = 33554432 := by
  have hq : (0 : ℚ) < 33554432 - 1 := by norm_num
  have hu : ulp (33554432 - 1) = 2 := by
    rw [ulp_of_bounds (e := 24) hq (by norm_num) (by norm_num) (by norm_num)]
    norm_num
  unfold roundFloat
  rw [hu]
  have hf : ⌊((33554432 : ℚ) - 1) / 2⌋ = 16777215 := by
    rw [Int.floor_eq_iff]
    norm_num
  unfold roundHalfEven
  rw [hf]
  norm_num

/-! ## C1: damage in single precision -/

/-- The single-precision `TakeDamage` leaves in `CurrentHealth` the rounded difference. -/
theorem Single_TakeDamage_CurrentHealth (f : ℚ → ℚ) (a : ℚ) (s : State) :
    (Single.TakeDamage f a s).2.CurrentHealth = roundFloat (s.CurrentHealth - f a) := by
  unfold Single.TakeDamage
  simp only []
  split_ifs <;> rfl

/-- The single-precision `TakeDamage` returns what the base `TakeDamage` returned. -/
theorem Single_TakeDamage_fst (f : ℚ → ℚ) (a : ℚ) (s : State) :
    (Single.TakeDamage f a s).1 = f a := by
  unfold Single.TakeDamage
  simp only []
  split_ifs <;> rfl

/-- C1, as stated, fails: with a health of `2 ^ 24` and an applied damage of one half,
`TakeDamage` returns one half and leaves `CurrentHealth` at `2 ^ 24`, not at
`2 ^ 24 - 1 / 2`: the `float` subtraction rounds. -/
theorem Single_TakeDamage_rounds_health :
    healthTwoPow24.CurrentHealth = 16777216 ∧
    (Single.TakeDamage (fun d => d) (1 / 2) healthTwoPow24).1 = 1 / 2 ∧
    (Single.TakeDamage (fun d => d) (1 / 2) healthTwoPow24).2.CurrentHealth = 16777216 ∧
    (Single.TakeDamage (fun d => d) (1 / 2) healthTwoPow24).2.CurrentHealth
      ≠ healthTwoPow24.CurrentHealth - 1 / 2 := by
  have h : (Single.TakeDamage (fun d => d) (1 / 2) healthTwoPow24).2.CurrentHealth
      = 16777216 := by
    rw [Single_TakeDamage_CurrentHealth]
    exact roundFloat_two_pow_24_sub_half
  refine ⟨rfl, Single_TakeDamage_fst _ _ _, h, ?_⟩
  rw [h]
  show (16777216 : ℚ) ≠ 16777216 - 1 / 2
  norm_num

/-- C1, amended: `TakeDamage` returns the damage `d` that the engine's base `TakeDamage`
applied; `CurrentHealth` after the call is the single-precision result of `CurrentHealth`
before minus `d`, which is `CurrentHealth` before minus `d` whenever a `float` holds that
difference exactly; and `Dying` is true after the call exactly when it was true before or
the new `CurrentHealth` is at most zero. -/
theorem Single_TakeDamage_health_and_dying (Super_TakeDamage : ℚ → ℚ) (DamageAmount : ℚ)
    (s : State) :
    (Single.TakeDamage Super_TakeDamage DamageAmount s).1 = Super_TakeDamage DamageAmount ∧
    (Single.TakeDamage Super_TakeDamage DamageAmount s).2.CurrentHealth
      = roundFloat (s.CurrentHealth - Super_TakeDamage DamageAmount) ∧
    (IsSingle (s.CurrentHealth - Super_TakeDamage DamageAmount) →
      (Single.TakeDamage Super_TakeDamage DamageAmount s).2.CurrentHealth
        = s.CurrentHealth - Super_TakeDamage DamageAmount) ∧
    ((Single.TakeDamage Super_TakeDamage DamageAmount s).2.Dying = true ↔
      (s.Dying = true ∨
        (Single.TakeDamage Super_TakeDamage DamageAmount s).2.CurrentHealth ≤ 0)) := by
  refine ⟨Single_TakeDamage_fst _ _ _, Single_TakeDamage_CurrentHealth _ _ _, ?_, ?_⟩
  · intro h
    rw [Single_TakeDamage_CurrentHealth]
    exact h.1
  · rw [Single_TakeDamage_CurrentHealth]
    unfold Single.TakeDamage
    by_cases h : roundFloat (s.CurrentHealth - Super_TakeDamage DamageAmount) ≤ 0
    · simp only [h, if_true]
      split_ifs <;> simp [SetTimer, State.call, h]
    · have h' : roundFloat (s.CurrentHealth - Super_TakeDamage DamageAmount) > 0 :=
        lt_of_not_ge h
      simp only [h, h', if_true, if_false]
      split_ifs <;> simp [SetTimer, State.call, h]

/-- Witness for C1 (amended): the spawned sample character takes ten points of damage; a
`float` holds ninety exactly, and the health is ninety afterwards. -/
theorem Single_TakeDamage_health_and_dying_witness :
    IsSingle (spawned.CurrentHealth - 10) ∧
    (Single.TakeDamage (fun d => d) 10 spawned).1 = 10 ∧
    (Single.TakeDamage (fun d => d) 10 spawned).2.CurrentHealth = 90 ∧
    (Single.TakeDamage (fun d => d) 10 spawned).2.Dying = false :=
  have h90 : spawned.CurrentHealth - 10 = ((90 : ℕ) : ℚ) := by
    show (100 : ℚ) - 10 = ((90 : ℕ) : ℚ)
    norm_num
  have hs : IsSingle (spawned.CurrentHealth - 10) := by
    unfold IsSingle
    rw [h90]
    refine ⟨roundFloat_natCast 90 (by norm_num), ?_⟩
    norm_num [maxFloat]
  have h := Single_TakeDamage_health_and_dying (fun d => d) 10 spawned
  have hh : (Single.TakeDamage (fun d => d) 10 spawned).2.CurrentHealth = 90 := by
    rw [h.2.2.1 hs, h90]
    norm_num
  have hd : (Single.TakeDamage (fun d => d) 10 spawned).2.Dying = false := by
    have hnot : ¬ ((Single.TakeDamage (fun d => d) 10 spawned).2.Dying = true) := by
      rw [h.2.2.2, hh]
      have : spawned.Dying = false := rfl
      rw [this]
      norm_num
    simpa using hnot
  ⟨hs, h.1, hh, hd⟩

/-! ## C3: firing in single precision -/

/-- The single-precision `TakeDamage` leaves the ammunition data of the damaged character
alone. -/
theorem Single_TakeDamage_ammoView (f : ℚ → ℚ) (a : ℚ) (s : State) :
    ammoView (Single.TakeDamage f a s).2 = ammoView s := by
  unfold Single.TakeDamage
  simp only []
  split_ifs <;> simp [ammoView, SetTimer, State.call]

/-- The single-precision `TakeDamage` triggers no weapon. -/
theorem Single_TakeDamage_triggered (f : ℚ → ℚ) (a : ℚ) (s : State) (w : Weapon) :
    triggered (Single.TakeDamage f a s).2 w = triggered s w := by
  unfold Single.TakeDamage
  simp only []
  split_ifs <;> simp [triggered, State.callCount, SetTimer, State.call]

/-- The single-precision hit check leaves the shooter's ammunition data and trigger counts
as they were, whether it returns or faults. -/
theorem Single_Shoot_HitCheck_shooter (w : ShotWorld) (s : State) :
    ammoView (shooter (Single.Shoot_HitCheck w s)) = ammoView s ∧
    ∀ g, triggered (shooter (Single.Shoot_HitCheck w s)) g = triggered s g := by
  unfold Single.Shoot_HitCheck RotateCharacterToAim
  rcases w with ⟨_ | ⟨actor, name, angle⟩, f⟩
  · simp only []
    split_ifs <;> simp [shooter]
  · cases actor <;> simp only [] <;> split_ifs <;>
      simp [shooter, MakeMuzzleFlash_ammoView, MakeMuzzleFlash_triggered,
        CheckFrontBackHit_ammoView, CheckFrontBackHit_triggered, Single_TakeDamage_ammoView,
        Single_TakeDamage_triggered, ammoView_call, triggered_call]

/-- The single-precision hit check returns when the character is not player controlled or
has its `CurrentController`. -/
theorem Single_Shoot_HitCheck_returns (w : ShotWorld) (s : State)
    (h : s.PlayerControlled = false ∨ s.CurrentControllerValid = true) :
    ∃ r, Single.Shoot_HitCheck w s = .ok r := by
  unfold Single.Shoot_HitCheck RotateCharacterToAim
  rcases w with ⟨_ | ⟨actor, name, angle⟩, f⟩
  · rcases h with h | h <;> simp only [h] <;> split_ifs <;> simp_all
  · rcases h with h | h <;> cases actor <;> simp only [h] <;> split_ifs <;> simp_all

/-- What the single-precision `TriggerCurrentWeapon` does to the ammunition data. -/
theorem Single_TriggerCurrentWeapon_ammoView (s : State) :
    ammoView (Single.TriggerCurrentWeapon s) =
      (if s.CurrentWeaponNum = 0 then
        (roundFloat (s.CurrentBullet_Pistol - 1), s.MaxBullet_Pistol, s.CurrentBullet_Rifle,
          s.MaxBullet_Rifle, s.CurrentWeaponNum)
      else if s.CurrentWeaponNum = 1 then
        (s.CurrentBullet_Pistol, s.MaxBullet_Pistol, roundFloat (s.CurrentBullet_Rifle - 1),
          s.MaxBullet_Rifle, s.CurrentWeaponNum)
      else ammoView s) := by
  unfold Single.TriggerCurrentWeapon
  split_ifs <;> rfl

/-- How the single-precision `TriggerCurrentWeapon` moves the trigger counts. -/
theorem Single_TriggerCurrentWeapon_triggered (s : State) (g : Weapon) :
    triggered (Single.TriggerCurrentWeapon s) g =
      triggered s g +
        (if (s.CurrentWeaponNum = 0 ∧ g = .MyPistol) ∨ (s.CurrentWeaponNum = 1 ∧ g = .MyRifle)
          then 1 else 0) := by
  unfold Single.TriggerCurrentWeapon
  by_cases h0 : s.CurrentWeaponNum = 0
  · rw [if_pos h0]
    show triggered (s.call (.GunTriggered .MyPistol)) g = _
    cases g <;> simp [triggered_call, h0]
  · rw [if_neg h0]
    by_cases h1 : s.CurrentWeaponNum = 1
    · rw [if_pos h1]
      show triggered (s.call (.GunTriggered .MyRifle)) g = _
      cases g <;> simp [triggered_call, h1]
    · simp [h0, h1]

/-- The single-precision `TriggerCurrentWeapon` leaves the controller data alone. -/
theorem Single_TriggerCurrentWeapon_control (s : State) :
    (Single.TriggerCurrentWeapon s).PlayerControlled = s.PlayerControlled ∧
    (Single.TriggerCurrentWeapon s).CurrentControllerValid = s.CurrentControllerValid := by
  unfold Single.TriggerCurrentWeapon
  split_ifs <;> exact ⟨rfl, rfl⟩

/-- Past its guards the single-precision `Shoot` plays the cover animation when aiming from
cover, triggers the selected weapon and runs the hit check. -/
theorem Single_Shoot_of_loaded (w : ShotWorld) (s : State)
    (hAnim : s.CurrentAnimInstanceValid = true) (hMontage : s.CoverShootMontageValid = true)
    (hAim : s.ShouldAim = true)
    (hP : s.CurrentWeaponNum = 0 → 0 < s.CurrentBullet_Pistol)
    (hR : s.CurrentWeaponNum = 1 → 0 < s.CurrentBullet_Rifle) :
    Single.Shoot w s = Single.Shoot_HitCheck w
      (Single.TriggerCurrentWeapon
        (if s.CoverAimable = true then Shoot_PlayCoverShootAnim s else s)) := by
  unfold Single.Shoot
  simp [hAnim, hMontage, hAim, Shoot_BulletEmptyCheck_loaded s hP hR]

/-- The single-precision `Shoot` returns when the character is not player controlled or
has its `CurrentController`. -/
theorem Single_Shoot_returns (w : ShotWorld) (s : State)
    (h : s.PlayerControlled = false ∨ s.CurrentControllerValid = true) :
    ∃ r, Single.Shoot w s = .ok r := by
  unfold Single.Shoot
  split_ifs
  · exact ⟨_, rfl⟩
  · exact ⟨_, rfl⟩
  · exact ⟨_, rfl⟩
  · rcases hE : Shoot_BulletEmptyCheck s with ⟨b, s1⟩
    have hc := Shoot_BulletEmptyCheck_control s
    rw [hE] at hc
    simp only []
    split_ifs
    · exact ⟨_, rfl⟩
    · apply Single_Shoot_HitCheck_returns
      rw [(Single_TriggerCurrentWeapon_control _).1, (Single_TriggerCurrentWeapon_control _).2,
        (Shoot_PlayCoverShootAnim_control _).1, (Shoot_PlayCoverShootAnim_control _).2,
        hc.1, hc.2]
      exact h
    · apply Single_Shoot_HitCheck_returns
      rw [(Single_TriggerCurrentWeapon_control _).1, (Single_TriggerCurrentWeapon_control _).2,
        hc.1, hc.2]
      exact h

/-- The ammunition data and trigger counts after a single-precision shot that passed the
guards with a loaded weapon. -/
theorem Single_Shoot_fired (w : ShotWorld) (s : State)
    (hAnim : s.CurrentAnimInstanceValid = true) (hMontage : s.CoverShootMontageValid = true)
    (hAim : s.ShouldAim = true)
    (hP : s.CurrentWeaponNum = 0 → 0 < s.CurrentBullet_Pistol)
    (hR : s.CurrentWeaponNum = 1 → 0 < s.CurrentBullet_Rifle) :
    ammoView (shooter (Single.Shoot w s)) =
      (if s.CurrentWeaponNum = 0 then
        (roundFloat (s.CurrentBullet_Pistol - 1), s.MaxBullet_Pistol, s.CurrentBullet_Rifle,
          s.MaxBullet_Rifle, s.CurrentWeaponNum)
      else if s.CurrentWeaponNum = 1 then
        (s.CurrentBullet_Pistol, s.MaxBullet_Pistol, roundFloat (s.CurrentBullet_Rifle - 1),
          s.MaxBullet_Rifle, s.CurrentWeaponNum)
      else ammoView s) ∧
    ∀ g, triggered (shooter (Single.Shoot w s)) g =
      triggered s g +
        (if (s.CurrentWeaponNum = 0 ∧ g = .MyPistol) ∨ (s.CurrentWeaponNum = 1 ∧ g = .MyRifle)
          then 1 else 0) := by
  rw [Single_Shoot_of_loaded w s hAnim hMontage hAim hP hR]
  obtain ⟨hv, ht⟩ := Single_Shoot_HitCheck_shooter w
    (Single.TriggerCurrentWeapon
      (if s.CoverAimable = true then Shoot_PlayCoverShootAnim s else s))
  obtain ⟨cv, ct⟩ := coverAnim_frame s
  constructor
  · rw [hv, Single_TriggerCurrentWeapon_ammoView, cv]
    simp only [ammoView, Prod.mk.injEq] at cv
    rw [cv.1, cv.2.1, cv.2.2.1, cv.2.2.2.1, cv.2.2.2.2]
  · intro g
    rw [ht, Single_TriggerCurrentWeapon_triggered, ct]
    simp only [ammoView, Prod.mk.injEq] at cv
    rw [cv.2.2.2.2]

/-- C3, as stated, fails: the aiming sample character with `2 ^ 25` rounds in the pistol
passes every guard of `Shoot`, triggers the pistol once, and still has `2 ^ 25` rounds
afterwards, not one less: the `float` decrement rounds. -/
theorem Single_Shoot_keeps_counter_at_two_pow_25 :
    ammoTwoPow25.CurrentAnimInstanceValid = true ∧
    ammoTwoPow25.CoverShootMontageValid = true ∧ ammoTwoPow25.ShouldAim = true ∧
    ammoTwoPow25.CurrentWeaponNum = 0 ∧ ammoTwoPow25.CurrentBullet_Pistol = 33554432 ∧
    triggered (shooter (Single.Shoot missWorld ammoTwoPow25)) .MyPistol
      = triggered ammoTwoPow25 .MyPistol + 1 ∧
    (shooter (Single.Shoot missWorld ammoTwoPow25)).CurrentBullet_Pistol = 33554432 ∧
    (shooter (Single.Shoot missWorld ammoTwoPow25)).CurrentBullet_Pistol
      ≠ ammoTwoPow25.CurrentBullet_Pistol - 1 := by
  have hpos : (0 : ℚ) < ammoTwoPow25.CurrentBullet_Pistol := by
    show (0 : ℚ) < 33554432
    norm_num
  have hR : ammoTwoPow25.CurrentWeaponNum = 1 → 0 < ammoTwoPow25.CurrentBullet_Rifle :=
    fun h => absurd h (by decide)
  obtain ⟨hv, ht⟩ := Single_Shoot_fired missWorld ammoTwoPow25 rfl rfl rfl (fun _ => hpos) hR
  have h0 : ammoTwoPow25.CurrentWeaponNum = 0 := rfl
  rw [if_pos h0] at hv
  simp only [ammoView, Prod.mk.injEq] at hv
  have hc : (shooter (Single.Shoot missWorld ammoTwoPow25)).CurrentBullet_Pistol
      = 33554432 := by
    rw [hv.1]
    exact roundFloat_two_pow_25_sub_one
  refine ⟨rfl, rfl, rfl, rfl, rfl, ?_, hc, ?_⟩
  · rw [ht]
    simp [h0]
  · rw [hc]
    show (33554432 : ℚ) ≠ 33554432 - 1
    norm_num

/-- C3, amended: when the animation instance and the cover-shoot montage are present,
`ShouldAim` is true and the selected weapon has ammunition above zero, `Shoot` triggers that
weapon once and only it, leaves in its counter the single-precision result of the counter
minus 1, which is exactly 1 less whenever the counter is a whole number of at most `2 ^ 24`,
and leaves the other counter unchanged (pistol for index 0, rifle for index 1).  The shooter
is read where the call ends; the call returns whenever the character is not player
controlled or has its `CurrentController`. -/
theorem Single_Shoot_consumes_one_round (w : ShotWorld) (s : State)
    (hAnim : s.CurrentAnimInstanceValid = true) (hMontage : s.CoverShootMontageValid = true)
    (hAim : s.ShouldAim = true) :
    (s.CurrentWeaponNum = 0 → 0 < s.CurrentBullet_Pistol →
      triggered (shooter (Single.Shoot w s)) .MyPistol = triggered s .MyPistol + 1 ∧
      triggered (shooter (Single.Shoot w s)) .MyRifle = triggered s .MyRifle ∧
      (shooter (Single.Shoot w s)).CurrentBullet_Pistol
        = roundFloat (s.CurrentBullet_Pistol - 1) ∧
      (IsWhole s.CurrentBullet_Pistol → s.CurrentBullet_Pistol ≤ 16777216 →
        (shooter (Single.Shoot w s)).CurrentBullet_Pistol = s.CurrentBullet_Pistol - 1) ∧
      (shooter (Single.Shoot w s)).CurrentBullet_Rifle = s.CurrentBullet_Rifle) ∧
    (s.CurrentWeaponNum = 1 → 0 < s.CurrentBullet_Rifle →
      triggered (shooter (Single.Shoot w s)) .MyRifle = triggered s .MyRifle + 1 ∧
      triggered (shooter (Single.Shoot w s)) .MyPistol = triggered s .MyPistol ∧
      (shooter (Single.Shoot w s)).CurrentBullet_Rifle
        = roundFloat (s.CurrentBullet_Rifle - 1) ∧
      (IsWhole s.CurrentBullet_Rifle → s.CurrentBullet_Rifle ≤ 16777216 →
        (shooter (Single.Shoot w s)).CurrentBullet_Rifle = s.CurrentBullet_Rifle - 1) ∧
      (shooter (Single.Shoot w s)).CurrentBullet_Pistol = s.CurrentBullet_Pistol) ∧
    ((s.PlayerControlled = false ∨ s.CurrentControllerValid = true) →
      ∃ r, Single.Shoot w s = .ok r) := by
  refine ⟨?_, ?_, Single_Shoot_returns w s⟩
  · intro h0 hpos
    have hR : s.CurrentWeaponNum = 1 → 0 < s.CurrentBullet_Rifle := by
      intro h1; rw [h0] at h1; exact absurd h1 (by decide)
    obtain ⟨hv, ht⟩ := Single_Shoot_fired w s hAnim hMontage hAim (fun _ => hpos) hR
    rw [if_pos h0] at hv
    simp only [ammoView, Prod.mk.injEq] at hv
    refine ⟨?_, ?_, hv.1, ?_, hv.2.2.1⟩
    · rw [ht]; simp [h0]
    · rw [ht]; simp [h0]
    · intro hw hle
      rw [hv.1]
      exact roundFloat_pred_of_whole hw hpos hle
  · intro h1 hpos
    have hP : s.CurrentWeaponNum = 0 → 0 < s.CurrentBullet_Pistol := by
      intro h0; rw [h1] at h0; exact absurd h0 (by decide)
    have h0 : ¬ s.CurrentWeaponNum = 0 := by rw [h1]; decide
    obtain ⟨hv, ht⟩ := Single_Shoot_fired w s hAnim hMontage hAim hP (fun _ => hpos)
    rw [if_neg h0, if_pos h1] at hv
    simp only [ammoView, Prod.mk.injEq] at hv
    refine ⟨?_, ?_, hv.2.2.1, ?_, hv.1⟩
    · rw [ht]; simp [h1]
    · rw [ht]; simp [h1]
    · intro hw hle
      rw [hv.2.2.1]
      exact roundFloat_pred_of_whole hw hpos hle

/-- Witness for C3 (amended): the spawned sample character, aiming with twelve rounds in the
pistol, fires once and has eleven. -/
theorem Single_Shoot_consumes_one_round_witness :
    aiming.CurrentAnimInstanceValid = true ∧ aiming.CoverShootMontageValid = true ∧
    aiming.ShouldAim = true ∧ aiming.CurrentWeaponNum = 0 ∧ 0 < aiming.CurrentBullet_Pistol ∧
    IsWhole aiming.CurrentBullet_Pistol ∧ aiming.CurrentBullet_Pistol ≤ 16777216 ∧
    triggered (shooter (Single.Shoot missWorld aiming)) .MyPistol
      = triggered aiming .MyPistol + 1 ∧
    (shooter (Single.Shoot missWorld aiming)).CurrentBullet_Pistol = 11 :=
  have hA : aiming.CurrentAnimInstanceValid = true := rfl
  have hM : aiming.CoverShootMontageValid = true := rfl
  have hS : aiming.ShouldAim = true := rfl
  have h0 : aiming.CurrentWeaponNum = 0 := rfl
  have h12 : aiming.CurrentBullet_Pistol = 12 := rfl
  have hpos : 0 < aiming.CurrentBullet_Pistol := by
    rw [h12]; norm_num
  have hw : IsWhole aiming.CurrentBullet_Pistol := by
    rw [h12]; simpa using isWhole_intCast 12
  have hle : aiming.CurrentBullet_Pistol ≤ 16777216 := by
    rw [h12]; norm_num
  have h := (Single_Shoot_consumes_one_round missWorld aiming hA hM hS).1 h0 hpos
  have h11 : (shooter (Single.Shoot missWorld aiming)).CurrentBullet_Pistol = 11 := by
    rw [h.2.2.2.1 hw hle, h12]
    norm_num
  ⟨hA, hM, hS, h0, hpos, hw, hle, h.1, h11⟩

end SoldCamp
